import Mathlib

/-!
Verification development for the `mcp-linear` request handlers.

The TypeScript handlers under `src/server/requests/` are shallowly embedded:
JS strings become `List Char`, the Linear SDK client becomes an oracle
record `Tracker` of possibly-throwing functions, and each handler becomes a
function in the monad `M` that threads the oracle, records every remote call
it issues and every console warning it emits, and returns `Except JsError`.
JSON serialization of the final payload (`JSON.stringify` inside the
`content` wrapper) is elided: handlers return the structured record that the
source serializes.
-/

/-- JS strings are modelled as lists of characters. -/
abbrev Str := List Char

/-- Coerce a Lean string literal to the JS string model. -/
def str (s : String) : Str := s.data

/-- The apostrophe character (U+0027), used by some source error messages. -/
def aposC : Char := Char.ofNat 39

/-- JS truthiness of a string: `""` is falsy, everything else truthy. -/
def strTruthy (s : Str) : Bool := !s.isEmpty

/-- JS truthiness of a possibly-undefined string (`undefined` and `""` falsy). -/
def truthy : Option Str → Bool
  | none => false
  | some s => !s.isEmpty

/-- JS `a || b` for strings: `a` when truthy, else `b`. -/
def jsOr (s d : Str) : Str := if s.isEmpty then d else s

/-- JS `a || b` where `a` may be undefined. -/
def jsOrOpt : Option Str → Str → Str
  | none, d => d
  | some s, d => if s.isEmpty then d else s

/-- JS `String.prototype.toLowerCase`. -/
def jsToLower (s : Str) : Str := s.map Char.toLower

/-- Helper for `jsSplit`: walks the string accumulating the current segment. -/
def jsSplitAux (sep : Char) : Str → Str → List Str
  | [], acc => [acc.reverse]
  | c :: rest, acc =>
      if c = sep then acc.reverse :: jsSplitAux sep rest []
      else jsSplitAux sep rest (c :: acc)

/-- JS `String.prototype.split` with a one-character separator. -/
def jsSplit (sep : Char) (s : Str) : List Str := jsSplitAux sep s []

/-- Numeric value of a list of decimal digit characters. -/
def digitsToNat (ds : Str) : Nat := ds.foldl (fun a c => a * 10 + (c.toNat - 48)) 0

/-- Leading-digit parse used by `jsParseInt`; `none` models `NaN`. -/
def jsParseIntNat (s : Str) : Option Nat :=
  let ds := s.takeWhile Char.isDigit
  if ds.isEmpty then none else some (digitsToNat ds)

/-- JS `parseInt(s, 10)`: optional sign, then the longest prefix of digits;
`none` models `NaN` (no digits). Leading whitespace is not modelled since no
caller produces it. -/
def jsParseInt (s : Str) : Option Int :=
  match s with
  | [] => none
  | c :: rest =>
      if c = '-' then (jsParseIntNat rest).map (fun n => -(n : Int))
      else if c = '+' then (jsParseIntNat rest).map (fun n => (n : Int))
      else (jsParseIntNat (c :: rest)).map (fun n => (n : Int))

/-- JS `Number.prototype.toString` for integers (template-literal formatting). -/
def intToStr (n : Int) : Str := (toString n).data

/-- JS `String.prototype.includes`: substring containment. -/
def jsIncludes (hay needle : Str) : Bool :=
  match hay with
  | [] => needle.isEmpty
  | _ :: t => needle.isPrefixOf hay || jsIncludes t needle

/-! ## Error model (`@modelcontextprotocol/sdk` `McpError` plus arbitrary throws) -/

/-- The MCP error codes used by the handlers. -/
inductive ErrCode
  | invalidParams
  | internalError
deriving DecidableEq

/-- `McpError` from the MCP SDK: a code and a message. -/
structure McpErr where
  code : ErrCode
  message : Str
deriving DecidableEq

/-- A thrown JS value: either an `McpError` (the handlers test
`instanceof McpError`) or any other error carrying a message (SDK failures). -/
inductive JsError
  | mcp (e : McpErr)
  | other (message : Str)
deriving DecidableEq

/-- `(error as Error).message`. -/
def errMessage : JsError → Str
  | .mcp e => e.message
  | .other m => m

/-! ## Records returned by the Linear SDK oracle -/

/-- A Linear SDK user node. -/
structure UserRec where
  id : Str
  name : Str
  email : Str
deriving DecidableEq

/-- A Linear SDK team node (also the shape the handlers build for output). -/
structure TeamRec where
  id : Str
  name : Str
  key : Str
deriving DecidableEq

/-- A Linear SDK workflow-state node. -/
structure StateRec where
  id : Str
  name : Str
  type : Str
deriving DecidableEq

/-- A Linear SDK issue-label node. -/
structure LabelRec where
  id : Str
  name : Str
  color : Str
deriving DecidableEq

/-- A Linear SDK issue node as the handlers access it: scalar fields plus
ID references to the related entities. -/
structure IssueRec where
  id : Str
  title : Str
  description : Option Str
  number : Int
  key : Option Str
  createdAt : Str
  updatedAt : Str
  dueDate : Option Str
  estimate : Option Rat
  priority : Option Rat
  url : Str
  assigneeId : Option Str
  teamId : Option Str
  stateId : Option Str
  labelIds : Option (List Str)
deriving DecidableEq

/-- An issue as returned by the raw GraphQL query in
`getTicketByIdHandler.ts`: the relation graph is expanded inline. -/
structure GqlIssue where
  id : Str
  title : Str
  description : Option Str
  number : Int
  priority : Option Rat
  estimate : Option Rat
  dueDate : Option Str
  createdAt : Str
  updatedAt : Str
  url : Str
  team : Option TeamRec
  assignee : Option UserRec
  state : Option StateRec
  labels : Option (List LabelRec)
deriving DecidableEq

/-- A Linear SDK project node as the handlers access it. -/
structure ProjectRec where
  id : Str
  name : Str
  description : Option Str
  state : Option Str
  teamIds : Option (List Str)
  startDate : Option Str
  targetDate : Option Str
  progress : Option Rat
  updatedAt : Str
  url : Str
deriving DecidableEq

/-- The issue-update payload assembled by the update-ticket handlers. -/
structure UpdateData where
  title : Option Str := none
  description : Option Str := none
  stateId : Option Str := none
  assigneeId : Option Str := none
  priority : Option Rat := none
  dueDate : Option Str := none
  estimate : Option Rat := none
deriving DecidableEq

/-- The project-update payload assembled by `updateProjectHandler.ts`. -/
structure ProjectUpdateData where
  name : Option Str := none
  description : Option Str := none
  stateId : Option Str := none
  teamIds : Option (List Str) := none
  startDate : Option Str := none
  targetDate : Option Str := none
  progress : Option Rat := none
  icon : Option Str := none
  color : Option Str := none
deriving DecidableEq

/-- Result of `linearClient.updateIssue`. -/
structure UpdateResult where
  success : Bool
  issue : IssueRec
deriving DecidableEq

/-- Result of `linearClient.updateProject`. -/
structure ProjectUpdateResult where
  success : Bool
  project : ProjectRec
deriving DecidableEq

/-! ## Queries, calls and the tracker oracle -/

/-- The two filter shapes the handlers pass to `linearClient.issues`. -/
inductive IssuesFilter
  | byTeamKeyAndNumber (teamKey : Str) (number : Option Int)
  | byId (id : Str)
deriving DecidableEq

/-- The two GraphQL queries `getTicketByIdHandler.ts` builds: `issue(id:)`
or `issueByTeamKeyAndNumber(teamKey:, number:)`; `number = none` models a
`NaN` variable. -/
inductive GqlIssueQuery
  | byId (id : Str)
  | byTeamKeyAndNumber (teamKey : Str) (number : Option Int)
deriving DecidableEq

/-- One remote call to the Linear API, as recorded in the trace. -/
inductive Call
  | gqlIssue (q : GqlIssueQuery)
  | issues (f : IssuesFilter)
  | users (id : Str)
  | teamsById (id : Str)
  | teamsByKey (key : Str)
  | workflowStatesById (id : Str)
  | workflowStatesByTeam (teamId : Str)
  | issueLabels
  | updateIssue (id : Str) (data : UpdateData)
  | updateProject (id : Str) (data : ProjectUpdateData)
  | projectsById (id : Str)
  | projects (stateType : Option Str) (first : Int)
deriving DecidableEq

/-- The Linear client oracle: each capability either returns a value or
throws (`Except.error` carries the thrown message). -/
structure Tracker where
  gqlIssue : GqlIssueQuery → Except Str (Option GqlIssue)
  issues : IssuesFilter → Except Str (List IssueRec)
  users : Str → Except Str (List UserRec)
  teamsById : Str → Except Str (List TeamRec)
  teamsByKey : Str → Except Str (List TeamRec)
  workflowStatesById : Str → Except Str (List StateRec)
  workflowStatesByTeam : Str → Except Str (List StateRec)
  issueLabels : Unit → Except Str (List LabelRec)
  updateIssue : Str → UpdateData → Except Str UpdateResult
  updateProject : Str → ProjectUpdateData → Except Str ProjectUpdateResult
  projectsById : Str → Except Str (List ProjectRec)
  projects : Option Str → Int → Except Str (List ProjectRec)

/-- Result of running a handler: outcome, remote calls made (in order), and
console warnings/errors emitted (in order). -/
structure Out (α : Type) where
  res : Except JsError α
  calls : List Call
  warns : List Str

/-- The handler monad: a computation against the tracker oracle. -/
def M (α : Type) : Type := Tracker → Out α

def M.pure (a : α) : M α := fun _ => ⟨.ok a, [], []⟩

def M.bind (x : M α) (f : α → M β) : M β := fun t =>
  match x t with
  | ⟨.error e, cs, ws⟩ => ⟨.error e, cs, ws⟩
  | ⟨.ok a, cs, ws⟩ => ⟨(f a t).res, cs ++ (f a t).calls, ws ++ (f a t).warns⟩

instance : Monad M where
  pure := M.pure
  bind := M.bind

/-- JS `throw`. -/
def M.throw (e : JsError) : M α := fun _ => ⟨.error e, [], []⟩

/-- `throw new McpError(code, msg)`. -/
def throwMcp (code : ErrCode) (msg : Str) : M α := M.throw (.mcp ⟨code, msg⟩)

/-- JS `try { x } catch (e) { h e }`. -/
def M.tryCatch (x : M α) (h : JsError → M α) : M α := fun t =>
  match x t with
  | ⟨.ok a, cs, ws⟩ => ⟨.ok a, cs, ws⟩
  | ⟨.error e, cs, ws⟩ => ⟨(h e t).res, cs ++ (h e t).calls, ws ++ (h e t).warns⟩

/-- `console.warn` / `console.error`. -/
def consoleLog (msg : Str) : M Unit := fun _ => ⟨.ok (), [], [msg]⟩

/-- Lift one oracle invocation into the monad, recording the call. -/
def liftCall (c : Call) (r : Except Str α) : Out α :=
  match r with
  | .ok a => ⟨.ok a, [c], []⟩
  | .error m => ⟨.error (.other m), [c], []⟩

def callGqlIssue (q : GqlIssueQuery) : M (Option GqlIssue) :=
  fun t => liftCall (.gqlIssue q) (t.gqlIssue q)

def callIssues (f : IssuesFilter) : M (List IssueRec) :=
  fun t => liftCall (.issues f) (t.issues f)

def callUsers (id : Str) : M (List UserRec) :=
  fun t => liftCall (.users id) (t.users id)

def callTeamsById (id : Str) : M (List TeamRec) :=
  fun t => liftCall (.teamsById id) (t.teamsById id)

def callTeamsByKey (key : Str) : M (List TeamRec) :=
  fun t => liftCall (.teamsByKey key) (t.teamsByKey key)

def callWorkflowStatesById (id : Str) : M (List StateRec) :=
  fun t => liftCall (.workflowStatesById id) (t.workflowStatesById id)

def callWorkflowStatesByTeam (teamId : Str) : M (List StateRec) :=
  fun t => liftCall (.workflowStatesByTeam teamId) (t.workflowStatesByTeam teamId)

def callIssueLabels : M (List LabelRec) :=
  fun t => liftCall .issueLabels (t.issueLabels ())

def callUpdateIssue (id : Str) (d : UpdateData) : M UpdateResult :=
  fun t => liftCall (.updateIssue id d) (t.updateIssue id d)

def callUpdateProject (id : Str) (d : ProjectUpdateData) : M ProjectUpdateResult :=
  fun t => liftCall (.updateProject id d) (t.updateProject id d)

def callProjectsById (id : Str) : M (List ProjectRec) :=
  fun t => liftCall (.projectsById id) (t.projectsById id)

def callProjects (stateType : Option Str) (first : Int) : M (List ProjectRec) :=
  fun t => liftCall (.projects stateType first) (t.projects stateType first)

/-! ## Shared output shapes and helpers used by several handlers -/

/-- The normalized ticket payload built by `getTicketByIdHandler.ts`. -/
structure TicketData where
  id : Str
  title : Str
  description : Option Str
  number : Int
  key : Str
  createdAt : Str
  updatedAt : Str
  dueDate : Option Str
  estimate : Option Rat
  priority : Option Rat
  assignee : Option UserRec
  team : Option TeamRec
  state : Option StateRec
  labels : List LabelRec
  url : Str
deriving DecidableEq

/-- `issue.key || (team ? team.key + "-" + number : "ISSUE-" + number)`:
the display-key derivation shared by the fallback paths of
`getTicketByIdHandler.ts` (lines 439-442) and both update-ticket handlers. -/
def deriveTicketKey (key : Option Str) (team : Option TeamRec) (number : Int) : Str :=
  jsOrOpt key
    (match team with
     | some t => t.key ++ str "-" ++ intToStr number
     | none => str "ISSUE-" ++ intToStr number)

/-- Backfill of a team by its ID with `name || "Unknown"` / `key || "TEAM"`
defaults, shared by the update-ticket handlers (`// For team` blocks). -/
def backfillTeamById (teamId : Option Str) : M (Option TeamRec) :=
  if truthy teamId then
    M.tryCatch
      (do
        let teams ← callTeamsById (teamId.getD [])
        match teams with
        | td :: _ =>
            pure (some { id := td.id, name := jsOr td.name (str "Unknown"),
                         key := jsOr td.key (str "TEAM") })
        | [] => pure none)
      (fun error => do
        consoleLog (str "Error fetching team: " ++ errMessage error)
        pure none)
  else M.pure none

/-- Backfill of a workflow state by its ID with `"Unknown"` defaults, shared
by `getTicketByIdHandler.ts` and the part_000 update handler (`// For state`). -/
def backfillStateById (stateId : Option Str) : M (Option StateRec) :=
  if truthy stateId then
    M.tryCatch
      (do
        let states ← callWorkflowStatesById (stateId.getD [])
        match states with
        | sd :: _ =>
            pure (some { id := sd.id, name := jsOr sd.name (str "Unknown"),
                         type := jsOr sd.type (str "Unknown") })
        | [] => pure none)
      (fun error => do
        consoleLog (str "Error fetching state: " ++ errMessage error)
        pure none)
  else M.pure none

/-! ## `getTicketByIdHandler.ts` -/

namespace GetTicketById

/-- Arguments of the get-ticket handler. -/
structure Args where
  apiKey : Str
  ticketId : Str

/-- Lines 125-134: `if (args.ticketId.includes("-")) { parts = split("-");
teamKey = parts[0]; issueNumber = parts[1] } else issueId = ticketId`.
Returns `(issueId, teamKey, issueNumber)`. -/
def parseTicketId (ticketId : Str) : Option Str × Option Str × Option Str :=
  if ticketId.contains '-' then
    let parts := jsSplit '-' ticketId
    (none, some (parts.headD []), some (parts.getD 1 []))
  else (some ticketId, none, none)

/-- Lines 138-183: the GraphQL query and its variables;
`number: issueNumber ? parseInt(issueNumber, 10) : 0`. -/
def gqlQueryFor (ticketId : Str) : GqlIssueQuery :=
  match parseTicketId ticketId with
  | (some issueId, _, _) => .byId issueId
  | (none, teamKey, issueNumber) =>
      .byTeamKeyAndNumber (teamKey.getD [])
        (if truthy issueNumber then jsParseInt (issueNumber.getD []) else some 0)

/-- Lines 208-210: `issue.team ? issue.team.key + "-" + issue.number :
"ISSUE-" + issue.number` (the GraphQL path always derives the key). -/
def gqlTicketKey (team : Option TeamRec) (number : Int) : Str :=
  match team with
  | some t => t.key ++ str "-" ++ intToStr number
  | none => str "ISSUE-" ++ intToStr number

/-- Lines 203-226: format the ticket from the GraphQL response. -/
def formatGqlTicket (issue : GqlIssue) : TicketData :=
  { id := issue.id
    title := issue.title
    description := issue.description
    number := issue.number
    key := gqlTicketKey issue.team issue.number
    createdAt := issue.createdAt
    updatedAt := issue.updatedAt
    dueDate := issue.dueDate
    estimate := issue.estimate
    priority := issue.priority
    assignee := issue.assignee
    team := issue.team
    state := issue.state
    labels := issue.labels.getD []
    url := issue.url }

/-- Lines 243-294: the fallback find uses the `(team.key, number)` filter
only when `teamKey && issueNumber` are both truthy, else filters by
`id == args.ticketId`. -/
def fallbackFilter (ticketId : Str) (teamKey issueNumber : Option Str) : IssuesFilter :=
  if truthy teamKey && truthy issueNumber then
    .byTeamKeyAndNumber (teamKey.getD []) (jsParseInt (issueNumber.getD []))
  else .byId ticketId

/-- Lines 241-301: find the issue in the fallback path; any failure inside
(including the zero-match `McpError`) is re-thrown as
`Could not find ticket: <id>` after a `console.error`. -/
def findIssueFallback (args : Args) (teamKey issueNumber : Option Str) : M IssueRec :=
  M.tryCatch
    (do
      let issues ← callIssues (fallbackFilter args.ticketId teamKey issueNumber)
      match issues with
      | [] => throwMcp .internalError (str "Ticket not found: " ++ args.ticketId)
      | i :: _ => M.pure i)
    (fun error => do
      consoleLog (str "Error finding ticket: " ++ errMessage error)
      throwMcp .internalError (str "Could not find ticket: " ++ args.ticketId))

/-- Lines 313-335: backfill the assignee; a lookup failure logs a warning
and leaves the assignee `null`. -/
def backfillAssignee (issue : IssueRec) : M (Option UserRec) :=
  if truthy issue.assigneeId then
    M.tryCatch
      (do
        let users ← callUsers (issue.assigneeId.getD [])
        match users with
        | u :: _ =>
            pure (some { id := u.id, name := jsOr u.name (str "Unknown"),
                         email := jsOr u.email [] })
        | [] => pure none)
      (fun error => do
        consoleLog (str "Error fetching assignee: " ++ errMessage error)
        pure none)
  else M.pure none

/-- Lines 338-382: backfill the team by `teamId`, or by the parsed
`teamKey` when the issue carries no `teamId`. -/
def backfillTeam (issue : IssueRec) (teamKey : Option Str) : M (Option TeamRec) :=
  if truthy issue.teamId then
    M.tryCatch
      (do
        let teams ← callTeamsById (issue.teamId.getD [])
        match teams with
        | td :: _ =>
            pure (some { id := td.id, name := jsOr td.name (str "Unknown"),
                         key := jsOr td.key (str "TEAM") })
        | [] => pure none)
      (fun error => do
        consoleLog (str "Error fetching team: " ++ errMessage error)
        pure none)
  else if truthy teamKey then
    M.tryCatch
      (do
        let teams ← callTeamsByKey (teamKey.getD [])
        match teams with
        | td :: _ =>
            pure (some { id := td.id, name := jsOr td.name (str "Unknown"),
                         key := jsOr td.key (teamKey.getD []) })
        | [] => pure none)
      (fun error => do
        consoleLog (str "Error fetching team by key: " ++ errMessage error)
        pure none)
  else M.pure none

/-- The placeholder built for a label whose record cannot be resolved. -/
def labelPlaceholder (id : Str) : LabelRec :=
  { id := id, name := str "Unknown", color := str "#cccccc" }

/-- Lines 410-437: backfill labels through the full label catalog; on
failure of the catalog fetch every label degrades to the placeholder. -/
def backfillLabels (issue : IssueRec) : M (List LabelRec) :=
  if 0 < (issue.labelIds.getD []).length then
    M.tryCatch
      (do
        let allLabels ← callIssueLabels
        pure ((issue.labelIds.getD []).map (fun labelId =>
          match allLabels.find? (fun l => l.id == labelId) with
          | some f =>
              { id := f.id, name := jsOr f.name (str "Unknown"),
                color := jsOr f.color (str "#cccccc") }
          | none => labelPlaceholder labelId)))
      (fun error => do
        consoleLog (str "Error fetching labels: " ++ errMessage error)
        pure ((issue.labelIds.getD []).map labelPlaceholder))
  else M.pure []

/-- Lines 240-471: the whole fallback path (minimal query plus backfills). -/
def fallbackPath (args : Args) (teamKey issueNumber : Option Str) : M TicketData := do
  let issue ← findIssueFallback args teamKey issueNumber
  let assignee ← backfillAssignee issue
  let team ← backfillTeam issue teamKey
  let state ← backfillStateById issue.stateId
  let labels ← backfillLabels issue
  pure
    { id := issue.id
      title := issue.title
      description := issue.description
      number := issue.number
      key := deriveTicketKey issue.key team issue.number
      createdAt := issue.createdAt
      updatedAt := issue.updatedAt
      dueDate := issue.dueDate
      estimate := issue.estimate
      priority := issue.priority
      assignee := assignee
      team := team
      state := state
      labels := labels
      url := issue.url }

/-- `getTicketByIdHandler.ts` `handleRequest`: validate, try the structured
GraphQL query, fall back on any exception, wrap non-MCP errors. -/
def handleRequest (args : Args) : M TicketData :=
  if args.apiKey.isEmpty then
    throwMcp .invalidParams (str "Linear API key is required")
  else if args.ticketId.isEmpty then
    throwMcp .invalidParams (str "Ticket ID or key is required")
  else
    M.tryCatch
      (M.tryCatch
        (do
          let response ← callGqlIssue (gqlQueryFor args.ticketId)
          match response with
          | none => throwMcp .internalError (str "Ticket not found: " ++ args.ticketId)
          | some issue => pure (formatGqlTicket issue))
        (fun _graphqlError =>
          fallbackPath args (parseTicketId args.ticketId).2.1
            (parseTicketId args.ticketId).2.2))
      (fun error =>
        match error with
        | .mcp _ => M.throw error
        | .other m => do
            consoleLog (str "Error retrieving ticket: " ++ m)
            M.throw (.mcp ⟨.internalError, str "Failed to retrieve ticket: " ++ m⟩))

end GetTicketById

/-! ## `updateTicketHandler.ts` (the src variant, without "done" handling) -/

/-- Arguments of the update-ticket handlers (both variants share them). -/
structure UpdateTicketArgs where
  apiKey : Str
  ticketId : Str
  title : Option Str := none
  description : Option Str := none
  stateId : Option Str := none
  assigneeId : Option Str := none
  priority : Option Rat := none
  dueDate : Option Str := none
  estimate : Option Rat := none

namespace UpdateTicket

/-- The `ticket` object of the update response. -/
structure TicketOut where
  id : Str
  title : Str
  description : Option Str
  number : Int
  key : Str
  updatedAt : Str
  url : Str
deriving DecidableEq

/-- The update-ticket response payload. -/
structure ResponseData where
  success : Bool
  message : Str
  ticket : TicketOut
deriving DecidableEq

/-- Lines 46-59: `updateFields.some(field => args[field] !== undefined)`. -/
def hasUpdateField (args : UpdateTicketArgs) : Bool :=
  args.title.isSome || args.description.isSome || args.stateId.isSome ||
  args.assigneeId.isSome || args.priority.isSome || args.dueDate.isSome ||
  args.estimate.isSome

/-- Lines 69: `args.priority !== undefined && (priority < 0 || priority > 4)`. -/
def priorityInvalid (p : Option Rat) : Bool :=
  match p with
  | none => false
  | some v => decide (v < 0 ∨ 4 < v)

/-- Lines 83-92: copy every defined argument into the update payload. -/
def buildUpdateData (args : UpdateTicketArgs) : UpdateData :=
  { title := args.title
    description := args.description
    stateId := args.stateId
    assigneeId := args.assigneeId
    priority := args.priority
    dueDate := args.dueDate
    estimate := args.estimate }

/-- Lines 98-114: the issue lookup filter: split on hyphens and use the
first two segments as `(teamKey, number)`, else filter by `id`. -/
def issuesFilterFor (ticketId : Str) : IssuesFilter :=
  if ticketId.contains '-' then
    let parts := jsSplit '-' ticketId
    .byTeamKeyAndNumber (parts.headD []) (jsParseInt (parts.getD 1 []))
  else .byId ticketId

/-- Lines 95-149: find the issue; any failure inside (including the
zero-match `McpError`) is re-thrown as `Could not find ticket: <id>`. -/
def findIssue (args : UpdateTicketArgs) : M IssueRec :=
  M.tryCatch
    (do
      let issues ← callIssues (issuesFilterFor args.ticketId)
      match issues with
      | [] => throwMcp .internalError (str "Ticket not found: " ++ args.ticketId)
      | i :: _ => M.pure i)
    (fun error => do
      consoleLog (str "Error finding ticket: " ++ errMessage error)
      throwMcp .internalError (str "Could not find ticket: " ++ args.ticketId))

/-- `updateTicketHandler.ts` `handleRequest`. -/
def handleRequest (args : UpdateTicketArgs) : M ResponseData :=
  if args.apiKey.isEmpty then
    throwMcp .invalidParams (str "Linear API key is required")
  else if args.ticketId.isEmpty then
    throwMcp .invalidParams (str "Ticket ID or key is required")
  else if !hasUpdateField args then
    throwMcp .invalidParams (str "At least one field to update is required")
  else if priorityInvalid args.priority then
    throwMcp .invalidParams (str "Priority must be between 0 and 4")
  else
    M.tryCatch
      (do
        let issue ← findIssue args
        let updateResult ← callUpdateIssue issue.id (buildUpdateData args)
        if !updateResult.success then
          throwMcp .internalError (str "Failed to update ticket: " ++ args.ticketId)
        else do
          let updatedIssue := updateResult.issue
          let team ← backfillTeamById updatedIssue.teamId
          pure
            { success := true
              message := str "Ticket updated successfully"
              ticket :=
                { id := updatedIssue.id
                  title := updatedIssue.title
                  description := updatedIssue.description
                  number := updatedIssue.number
                  key := deriveTicketKey updatedIssue.key team updatedIssue.number
                  updatedAt := updatedIssue.updatedAt
                  url := updatedIssue.url } })
      (fun error =>
        match error with
        | .mcp _ => M.throw error
        | .other m => do
            consoleLog (str "Error updating ticket: " ++ m)
            M.throw (.mcp ⟨.internalError, str "Failed to update ticket: " ++ m⟩))

end UpdateTicket

/-! ## The update-ticket handler variant of `src/unnamed/part_000`
(identical to `updateTicketHandler.ts` plus `"done"`/`"completed"` state-name
resolution and a `state` field in the response). -/

namespace UpdateTicketDone

/-- The `ticket` object of the part_000 update response (adds `state`). -/
structure TicketOut where
  id : Str
  title : Str
  description : Option Str
  number : Int
  key : Str
  updatedAt : Str
  state : Option StateRec
  url : Str
deriving DecidableEq

/-- The part_000 update-ticket response payload. -/
structure ResponseData where
  success : Bool
  message : Str
  ticket : TicketOut
deriving DecidableEq

/-- `stateId.toLowerCase() === "done" || stateId.toLowerCase() === "completed"`. -/
def isDoneSynonym (s : Str) : Bool :=
  jsToLower s == str "done" || jsToLower s == str "completed"

/-- Lines 89-105: the initial payload; a `"done"`/`"completed"` synonym (or
a falsy `stateId`) leaves `stateId` unset for later resolution. -/
def initUpdateData (args : UpdateTicketArgs) : UpdateData :=
  { title := args.title
    description := args.description
    stateId :=
      match args.stateId with
      | some s => if isDoneSynonym s then none else if s.isEmpty then none else some s
      | none => none
    assigneeId := args.assigneeId
    priority := args.priority
    dueDate := args.dueDate
    estimate := args.estimate }

/-- Lines 218-223: the state-matching predicate passed to `.find`. -/
def doneStateMatch (state : StateRec) : Bool :=
  jsToLower state.name == str "done" || jsToLower state.name == str "completed" ||
  state.type == str "completed"

/-- Line 230: `Could not find a 'Done' state for this team`. -/
def doneStateMissingMsg : Str :=
  str "Could not find a " ++ aposC :: str "Done" ++ aposC :: str " state for this team"

/-- Line 242 prefix: `Failed to find 'Done' state: `. -/
def doneStateFailedMsg : Str :=
  str "Failed to find " ++ aposC :: str "Done" ++ aposC :: str " state: "

/-- Lines 180-203: `effectiveTeamId`: the issue's `teamId`, or a lookup by
the ticket key's team prefix when the issue has none. -/
def resolveEffectiveTeamId (args : UpdateTicketArgs) (issue : IssueRec) : M (Option Str) :=
  let teamId := issue.teamId
  if !truthy teamId && args.ticketId.contains '-' then
    let teamKey := (jsSplit '-' args.ticketId).headD []
    M.tryCatch
      (do
        let teams ← callTeamsByKey teamKey
        match teams with
        | t :: _ => M.pure (some t.id)
        | [] => M.pure teamId)
      (fun error => do
        consoleLog (str "Error finding team by key " ++ teamKey ++ str ": " ++
          errMessage error)
        pure teamId)
  else M.pure teamId

/-- Lines 172-245: resolve a `"done"`/`"completed"` synonym to the first
matching workflow state of the issue's team; failures are wrapped with
`Failed to find 'Done' state: `. -/
def resolveDoneState (args : UpdateTicketArgs) (issue : IssueRec)
    (updateData : UpdateData) : M UpdateData :=
  if truthy args.stateId && isDoneSynonym (args.stateId.getD []) then
    M.tryCatch
      (do
        let effectiveTeamId ← resolveEffectiveTeamId args issue
        if truthy effectiveTeamId then do
          let workflowStates ← callWorkflowStatesByTeam (effectiveTeamId.getD [])
          match workflowStates.find? doneStateMatch with
          | some doneState => pure { updateData with stateId := some doneState.id }
          | none => throwMcp .internalError doneStateMissingMsg
        else
          throwMcp .internalError
            (str "Ticket does not have a team, cannot determine workflow states"))
      (fun error =>
        throwMcp .internalError (doneStateFailedMsg ++ errMessage error))
  else M.pure updateData

/-- Lines 247-341: update the issue and format the response (with team and
state backfill). -/
def finishUpdate (args : UpdateTicketArgs) (issue : IssueRec)
    (updateData : UpdateData) : M ResponseData := do
  let updateResult ← callUpdateIssue issue.id updateData
  if !updateResult.success then
    throwMcp .internalError (str "Failed to update ticket: " ++ args.ticketId)
  else do
    let updatedIssue := updateResult.issue
    let team ← backfillTeamById updatedIssue.teamId
    let state ← backfillStateById updatedIssue.stateId
    pure
      { success := true
        message := str "Ticket updated successfully"
        ticket :=
          { id := updatedIssue.id
            title := updatedIssue.title
            description := updatedIssue.description
            number := updatedIssue.number
            key := deriveTicketKey updatedIssue.key team updatedIssue.number
            updatedAt := updatedIssue.updatedAt
            state := state
            url := updatedIssue.url } }

/-- part_000 `handleRequest`: validation and lookup are identical to
`updateTicketHandler.ts`; the `"done"` synonym is resolved between lookup
and update. -/
def handleRequest (args : UpdateTicketArgs) : M ResponseData :=
  if args.apiKey.isEmpty then
    throwMcp .invalidParams (str "Linear API key is required")
  else if args.ticketId.isEmpty then
    throwMcp .invalidParams (str "Ticket ID or key is required")
  else if !UpdateTicket.hasUpdateField args then
    throwMcp .invalidParams (str "At least one field to update is required")
  else if UpdateTicket.priorityInvalid args.priority then
    throwMcp .invalidParams (str "Priority must be between 0 and 4")
  else
    M.tryCatch
      (do
        let issue ← UpdateTicket.findIssue args
        let updateData ← resolveDoneState args issue (initUpdateData args)
        finishUpdate args issue updateData)
      (fun error =>
        match error with
        | .mcp _ => M.throw error
        | .other m => do
            consoleLog (str "Error updating ticket: " ++ m)
            M.throw (.mcp ⟨.internalError, str "Failed to update ticket: " ++ m⟩))

end UpdateTicketDone

/-! ## `updateProjectHandler.ts` -/

namespace UpdateProject

/-- Arguments of the update-project handler. -/
structure Args where
  apiKey : Str
  projectId : Str
  name : Option Str := none
  description : Option Str := none
  stateId : Option Str := none
  teamIds : Option (List Str) := none
  startDate : Option Str := none
  targetDate : Option Str := none
  progress : Option Rat := none
  icon : Option Str := none
  color : Option Str := none

/-- The `project` object of the update response. -/
structure ProjectOut where
  id : Str
  name : Str
  description : Option Str
  state : Option Str
  teams : List TeamRec
  startDate : Option Str
  targetDate : Option Str
  progress : Option Rat
  updatedAt : Str
  url : Str
deriving DecidableEq

/-- The update-project response payload. -/
structure ResponseData where
  success : Bool
  message : Str
  project : ProjectOut
deriving DecidableEq

/-- Lines 51-66: `updateFields.some(field => args[field] !== undefined)`. -/
def hasUpdateField (args : Args) : Bool :=
  args.name.isSome || args.description.isSome || args.stateId.isSome ||
  args.teamIds.isSome || args.startDate.isSome || args.targetDate.isSome ||
  args.progress.isSome || args.icon.isSome || args.color.isSome

/-- Line 76: `args.progress !== undefined && (progress < 0 || progress > 1)`. -/
def progressInvalid (p : Option Rat) : Bool :=
  match p with
  | none => false
  | some v => decide (v < 0 ∨ 1 < v)

/-- Lines 90-101: copy every defined argument into the update payload. -/
def buildUpdateData (args : Args) : ProjectUpdateData :=
  { name := args.name
    description := args.description
    stateId := args.stateId
    teamIds := args.teamIds
    startDate := args.startDate
    targetDate := args.targetDate
    progress := args.progress
    icon := args.icon
    color := args.color }

/-- Lines 141-160: one team lookup of the `Promise.all` batch. -/
def lookupTeam (teamId : Str) : M (Option TeamRec) := do
  let teamResult ← callTeamsById teamId
  match teamResult with
  | td :: _ =>
      pure (some { id := td.id, name := jsOr td.name (str "Unknown"),
                   key := jsOr td.key (str "TEAM") })
  | [] => pure none

/-- Lines 138-170: backfill the project's teams; ordering follows the input
ID list (`Promise.all`), and any failure degrades to an empty list. -/
def backfillProjectTeams (teamIds : Option (List Str)) : M (List TeamRec) :=
  if 0 < (teamIds.getD []).length then
    M.tryCatch
      (do
        let teamResults ← (teamIds.getD []).mapM lookupTeam
        pure (teamResults.filterMap id))
      (fun error => do
        consoleLog (str "Error fetching teams: " ++ errMessage error)
        pure [])
  else M.pure []

/-- `updateProjectHandler.ts` `handleRequest`. -/
def handleRequest (args : Args) : M ResponseData :=
  if args.apiKey.isEmpty then
    throwMcp .invalidParams (str "Linear API key is required")
  else if args.projectId.isEmpty then
    throwMcp .invalidParams (str "Project ID is required")
  else if !hasUpdateField args then
    throwMcp .invalidParams (str "At least one field to update is required")
  else if progressInvalid args.progress then
    throwMcp .invalidParams (str "Progress must be between 0 and 1")
  else
    M.tryCatch
      (do
        let projects ← callProjectsById args.projectId
        match projects with
        | [] => throwMcp .internalError (str "Project not found: " ++ args.projectId)
        | project :: _ => do
            let updateResult ← callUpdateProject project.id (buildUpdateData args)
            if !updateResult.success then
              throwMcp .internalError (str "Failed to update project: " ++ args.projectId)
            else do
              let updatedProject := updateResult.project
              let teams ← backfillProjectTeams updatedProject.teamIds
              pure
                { success := true
                  message := str "Project updated successfully"
                  project :=
                    { id := updatedProject.id
                      name := updatedProject.name
                      description := updatedProject.description
                      state := updatedProject.state
                      teams := teams
                      startDate := updatedProject.startDate
                      targetDate := updatedProject.targetDate
                      progress := updatedProject.progress
                      updatedAt := updatedProject.updatedAt
                      url := updatedProject.url } })
      (fun error =>
        match error with
        | .mcp _ => M.throw error
        | .other m => do
            consoleLog (str "Error updating project: " ++ m)
            M.throw (.mcp ⟨.internalError, str "Failed to update project: " ++ m⟩))

end UpdateProject

/-! ## The get-projects handler of `src/unnamed/part_001` -/

namespace GetProjects

/-- Arguments of the get-projects handler. -/
structure Args where
  apiKey : Str
  search : Option Str := none
  status : Option Str := none
  limit : Option Int := none

/-- A formatted project of the response list. -/
structure ProjectOut where
  id : Str
  name : Str
  description : Option Str
  status : Str
  startDate : Option Str
  targetDate : Option Str
  progress : Option Rat
  url : Str
deriving DecidableEq

/-- The get-projects response payload. -/
structure ResponseData where
  projects : List ProjectOut
  total : Nat
deriving DecidableEq

/-- Lines 46-52: the status-name map (every recognized name maps to the
Linear state type of the same spelling). -/
def statusMap (s : Str) : Option Str :=
  if s == str "planned" then some (str "planned")
  else if s == str "started" then some (str "started")
  else if s == str "paused" then some (str "paused")
  else if s == str "completed" then some (str "completed")
  else if s == str "canceled" then some (str "canceled")
  else none

/-- Lines 43-62: the optional `state.type` filter. -/
def statusFilter (status : Option Str) : Option Str :=
  if truthy status then statusMap (status.getD []) else none

/-- Line 65: `args.limit && args.limit > 0 ? Math.min(args.limit, 50) : 10`. -/
def effLimit (limit : Option Int) : Int :=
  match limit with
  | some l => if 0 < l then min l 50 else 10
  | none => 10

/-- Lines 81-87: case-insensitive substring match on name or description. -/
def projectMatchesSearch (searchTerm : Str) (p : ProjectRec) : Bool :=
  let nameMatch := jsIncludes (jsToLower p.name) searchTerm
  let descMatch :=
    match p.description with
    | some d => if d.isEmpty then false else jsIncludes (jsToLower d) searchTerm
    | none => false
  nameMatch || descMatch

/-- Lines 99-118: format one project node. -/
def formatProject (p : ProjectRec) : ProjectOut :=
  { id := p.id
    name := p.name
    description := p.description
    status := jsOrOpt p.state (str "Unknown")
    startDate := p.startDate
    targetDate := p.targetDate
    progress := p.progress
    url := p.url }

/-- Lines 70-88 (search branch): fetch `limit * 2` projects unfiltered,
filter them client-side on the lower-cased search term, truncate to
`limit`. -/
def searchPath (args : Args) (limit : Int) : M (List ProjectRec) := do
  let projects ← callProjects none (limit * 2)
  pure ((projects.filter
    (projectMatchesSearch (jsToLower (args.search.getD [])))).take limit.toNat)

/-- part_001 `handleRequest`: the search path filters client-side and
truncates to `limit`; the plain path passes the filter and `limit` to the
API (the source's intermediate `filter`/`limit`/`formattedProjects`
bindings are inlined). -/
def handleRequest (args : Args) : M ResponseData :=
  M.tryCatch
    (if args.apiKey.isEmpty then
      throwMcp .invalidParams (str "API key is required")
    else do
      let nodes ←
        if truthy args.search then searchPath args (effLimit args.limit)
        else callProjects (statusFilter args.status) (effLimit args.limit)
      pure { projects := nodes.map formatProject,
             total := (nodes.map formatProject).length })
    (fun error =>
      match error with
      | .mcp _ => M.throw error
      | .other m => do
          consoleLog (str "Error fetching projects: " ++ m)
          M.throw (.mcp ⟨.internalError, str "Failed to fetch Linear projects: " ++ m⟩))

end GetProjects

/-! ## Concrete oracles and inputs used to evaluate the handlers -/

/-- A tracker whose every capability throws (the remote API is down). -/
def errTracker : Tracker where
  gqlIssue := fun _ => .error (str "down")
  issues := fun _ => .error (str "down")
  users := fun _ => .error (str "down")
  teamsById := fun _ => .error (str "down")
  teamsByKey := fun _ => .error (str "down")
  workflowStatesById := fun _ => .error (str "down")
  workflowStatesByTeam := fun _ => .error (str "down")
  issueLabels := fun _ => .error (str "down")
  updateIssue := fun _ _ => .error (str "down")
  updateProject := fun _ _ => .error (str "down")
  projectsById := fun _ => .error (str "down")
  projects := fun _ _ => .error (str "down")

/-- A tracker that answers every issue query with zero matches. -/
def zeroTracker : Tracker :=
  { errTracker with
    gqlIssue := fun _ => .ok none
    issues := fun _ => .ok [] }

/-- An issue carrying only ID references to its related entities. -/
def refsIssue : IssueRec where
  id := str "iss1"
  title := str "Title"
  description := none
  number := 7
  key := none
  createdAt := str "2024-01-01"
  updatedAt := str "2024-01-02"
  dueDate := none
  estimate := none
  priority := none
  url := str "https://linear.app/x"
  assigneeId := some (str "user1")
  teamId := some (str "team1")
  stateId := some (str "state1")
  labelIds := some [str "lab1"]

/-- A tracker that finds `refsIssue` by filter query but fails every
related-entity lookup (and the GraphQL path). -/
def failLookupsTracker : Tracker :=
  { errTracker with issues := fun _ => .ok [refsIssue] }

/-- The team of `refsIssue` as it exists on the remote side. -/
def frontendTeam : TeamRec where
  id := str "team1"
  name := str "Frontend"
  key := str "FE"

/-- A tracker for the done-synonym scenario: the issue's team has no state
matching "done"/"completed" by name or type. -/
def noDoneTracker : Tracker :=
  { errTracker with
    issues := fun _ => .ok [refsIssue]
    teamsById := fun _ => .ok [frontendTeam]
    teamsByKey := fun _ => .ok [frontendTeam]
    workflowStatesByTeam := fun _ => .ok [⟨str "s1", str "Todo", str "unstarted"⟩] }

/-- Like `noDoneTracker`, but the team does have a `Done` state. -/
def withDoneTracker : Tracker :=
  { noDoneTracker with
    workflowStatesByTeam := fun _ =>
      .ok [⟨str "s1", str "Todo", str "unstarted"⟩,
           ⟨str "s2", str "Done", str "completed"⟩] }

/-- The update-ticket request asking for state "done" on ticket FE-1. -/
def doneArgs : UpdateTicketArgs :=
  { apiKey := str "k", ticketId := str "FE-1", stateId := some (str "done") }

/-- Sample projects for the get-projects scenarios. -/
def alphaWebsite : ProjectRec where
  id := str "p1"
  name := str "Alpha website"
  description := none
  state := some (str "started")
  teamIds := none
  startDate := none
  targetDate := none
  progress := none
  updatedAt := str "u1"
  url := str "https://linear.app/p1"

def betaApp : ProjectRec where
  id := str "p2"
  name := str "Beta app"
  description := some (str "the alpha companion")
  state := none
  teamIds := none
  startDate := none
  targetDate := none
  progress := none
  updatedAt := str "u2"
  url := str "https://linear.app/p2"

def alphaBackend : ProjectRec where
  id := str "p3"
  name := str "Alpha backend"
  description := none
  state := some (str "planned")
  teamIds := none
  startDate := none
  targetDate := none
  progress := none
  updatedAt := str "u3"
  url := str "https://linear.app/p3"

/-- A tracker whose project listing honours the `first` pagination bound. -/
def projectsTracker : Tracker :=
  { errTracker with
    projects := fun _ first => .ok ([alphaWebsite, betaApp, alphaBackend].take first.toNat) }

/-! ## Notions used to state and prove the claims -/

/-- Two trackers that agree on every capability except the raw GraphQL one. -/
def agreeNoGql (t₁ t₂ : Tracker) : Prop :=
  t₁.issues = t₂.issues ∧ t₁.users = t₂.users ∧ t₁.teamsById = t₂.teamsById ∧
  t₁.teamsByKey = t₂.teamsByKey ∧ t₁.workflowStatesById = t₂.workflowStatesById ∧
  t₁.workflowStatesByTeam = t₂.workflowStatesByTeam ∧
  t₁.issueLabels = t₂.issueLabels ∧ t₁.updateIssue = t₂.updateIssue ∧
  t₁.updateProject = t₂.updateProject ∧ t₁.projectsById = t₂.projectsById ∧
  t₁.projects = t₂.projects

/-- A computation that never consults the raw GraphQL capability: its output
is the same against any two trackers that agree elsewhere. -/
def NoGql {α : Type} (x : M α) : Prop :=
  ∀ t₁ t₂ : Tracker, agreeNoGql t₁ t₂ → x t₁ = x t₂

/-- What `getTicketByIdHandler.ts` does with the outcome of the fallback
path once the GraphQL path has thrown: prepend the GraphQL call to the
trace, pass successes and `McpError`s through, wrap other errors. -/
def postGql (args : GetTicketById.Args) (fp : Out TicketData) : Out TicketData :=
  match fp.res with
  | .ok a => ⟨.ok a, .gqlIssue (GetTicketById.gqlQueryFor args.ticketId) :: fp.calls, fp.warns⟩
  | .error (.mcp e') =>
      ⟨.error (.mcp e'), .gqlIssue (GetTicketById.gqlQueryFor args.ticketId) :: fp.calls,
        fp.warns⟩
  | .error (.other m) =>
      ⟨.error (.mcp ⟨.internalError, str "Failed to retrieve ticket: " ++ m⟩),
        .gqlIssue (GetTicketById.gqlQueryFor args.ticketId) :: fp.calls,
        fp.warns ++ [str "Error retrieving ticket: " ++ m]⟩

/-! ## Helper lemmas -/

theorem strContains_iff (s : Str) (c : Char) : s.contains c = true ↔ c ∈ s :=
  List.elem_iff

theorem strContains_false (s : Str) (c : Char) (h : c ∉ s) : s.contains c = false := by
  rcases hb : s.contains c with _ | _
  · rfl
  · exact absurd ((strContains_iff s c).mp hb) h

theorem isEmpty_false_of_ne_nil {l : List Char} (h : l ≠ []) : l.isEmpty = false := by
  cases l with
  | nil => exact absurd rfl h
  | cons a l => rfl

theorem jsSplitAux_no_sep (sep : Char) (s : Str) (hs : sep ∉ s) (acc : Str) :
    jsSplitAux sep s acc = [acc.reverse ++ s] := by
  induction s generalizing acc with
  | nil => simp [jsSplitAux]
  | cons c rest ih =>
      have hc : c ≠ sep := fun h => hs (h ▸ List.mem_cons_self c rest)
      rw [jsSplitAux, if_neg hc, ih (fun h => hs (List.mem_cons_of_mem c h))]
      simp

theorem jsSplitAux_sep (pre suf : Str) (hpre : '-' ∉ pre) (hsuf : '-' ∉ suf)
    (acc : Str) : jsSplitAux '-' (pre ++ '-' :: suf) acc = [acc.reverse ++ pre, suf] := by
  induction pre generalizing acc with
  | nil =>
      rw [List.nil_append, jsSplitAux, if_pos rfl, jsSplitAux_no_sep '-' suf hsuf]
      simp
  | cons c p ih =>
      have hc : c ≠ '-' := fun h => hpre (h ▸ List.mem_cons_self c p)
      rw [List.cons_append, jsSplitAux, if_neg hc,
        ih (fun h => hpre (List.mem_cons_of_mem c h))]
      simp

theorem jsSplit_single_sep (pre suf : Str) (hpre : '-' ∉ pre) (hsuf : '-' ∉ suf) :
    jsSplit '-' (pre ++ '-' :: suf) = [pre, suf] := by
  rw [jsSplit, jsSplitAux_sep pre suf hpre hsuf]
  simp

theorem jsParseInt_digits (s : Str) (hne : s ≠ []) (hdig : ∀ c ∈ s, c.isDigit = true) :
    jsParseInt s = some ((digitsToNat s : Nat) : Int) := by
  cases s with
  | nil => exact absurd rfl hne
  | cons c rest =>
      have hc : c.isDigit = true := hdig c (List.mem_cons_self c rest)
      have h1 : c ≠ '-' := by intro h; rw [h] at hc; exact absurd hc (by decide)
      have h2 : c ≠ '+' := by intro h; rw [h] at hc; exact absurd hc (by decide)
      have htw : (c :: rest).takeWhile Char.isDigit = c :: rest :=
        List.takeWhile_eq_self_iff.mpr hdig
      rw [jsParseInt, if_neg h1, if_neg h2, jsParseIntNat]
      simp [htw]

/-! ### Evaluation lemmas for the handler monad -/

theorem bind_ok {α β : Type} {x : M α} {t : Tracker} {a : α} {cs : List Call}
    {ws : List Str} (h : x t = ⟨.ok a, cs, ws⟩) (f : α → M β) :
    (x >>= f) t = ⟨(f a t).res, cs ++ (f a t).calls, ws ++ (f a t).warns⟩ := by
  show M.bind x f t = _
  rw [M.bind, h]

theorem bind_err {α β : Type} {x : M α} {t : Tracker} {e : JsError} {cs : List Call}
    {ws : List Str} (h : x t = ⟨.error e, cs, ws⟩) (f : α → M β) :
    (x >>= f) t = ⟨.error e, cs, ws⟩ := by
  show M.bind x f t = _
  rw [M.bind, h]

theorem tryCatch_ok {α : Type} {x : M α} {hdl : JsError → M α} {t : Tracker} {a : α}
    {cs : List Call} {ws : List Str} (h : x t = ⟨.ok a, cs, ws⟩) :
    M.tryCatch x hdl t = ⟨.ok a, cs, ws⟩ := by
  rw [M.tryCatch, h]

theorem tryCatch_err {α : Type} {x : M α} {t : Tracker}
    {e : JsError} {cs : List Call} {ws : List Str} (h : x t = ⟨.error e, cs, ws⟩)
    (hdl : JsError → M α) :
    M.tryCatch x hdl t = ⟨(hdl e t).res, cs ++ (hdl e t).calls, ws ++ (hdl e t).warns⟩ := by
  rw [M.tryCatch, h]

theorem pure_apply {α : Type} (a : α) (t : Tracker) :
    (pure a : M α) t = ⟨.ok a, [], []⟩ := rfl

theorem mPure_apply {α : Type} (a : α) (t : Tracker) :
    (M.pure a : M α) t = ⟨.ok a, [], []⟩ := rfl

theorem throw_apply {α : Type} (e : JsError) (t : Tracker) :
    (M.throw e : M α) t = ⟨.error e, [], []⟩ := rfl

theorem throwMcp_apply {α : Type} (c : ErrCode) (m : Str) (t : Tracker) :
    (throwMcp c m : M α) t = ⟨.error (.mcp ⟨c, m⟩), [], []⟩ := rfl

theorem consoleLog_apply (m : Str) (t : Tracker) :
    consoleLog m t = ⟨.ok (), [], [m]⟩ := rfl

theorem liftCall_ok {α : Type} (c : Call) (a : α) :
    liftCall c (Except.ok a) = ⟨.ok a, [c], []⟩ := rfl

theorem liftCall_err {α : Type} (c : Call) (m : Str) :
    liftCall c (Except.error m : Except Str α) = ⟨.error (.other m), [c], []⟩ := rfl

theorem bind_calls_prefix {α β : Type} (x : M α) (f : α → M β) (t : Tracker) :
    ∃ r, ((x >>= f) t).calls = (x t).calls ++ r := by
  show ∃ r, (M.bind x f t).calls = (x t).calls ++ r
  rw [M.bind]
  rcases hx : x t with ⟨res, cs, ws⟩
  cases res with
  | error e => exact ⟨[], by simp⟩
  | ok a => exact ⟨(f a t).calls, by simp⟩

theorem tryCatch_calls_prefix {α : Type} (x : M α) (hdl : JsError → M α) (t : Tracker) :
    ∃ r, (M.tryCatch x hdl t).calls = (x t).calls ++ r := by
  rw [M.tryCatch]
  rcases hx : x t with ⟨res, cs, ws⟩
  cases res with
  | error e => exact ⟨(hdl e t).calls, by simp⟩
  | ok a => exact ⟨[], by simp⟩

/-! ### Closure of `NoGql` under the monad operations -/

theorem NoGql.bind {α β : Type} {x : M α} {f : α → M β} (hx : NoGql x)
    (hf : ∀ a, NoGql (f a)) : NoGql (x >>= f) := by
  intro t₁ t₂ h
  show M.bind x f t₁ = M.bind x f t₂
  rw [M.bind, M.bind, hx t₁ t₂ h]
  rcases x t₂ with ⟨res, cs, ws⟩
  cases res with
  | error e => rfl
  | ok a => dsimp only; rw [hf a t₁ t₂ h]

theorem NoGql.tryCatch {α : Type} {x : M α} {hdl : JsError → M α} (hx : NoGql x)
    (hh : ∀ e, NoGql (hdl e)) : NoGql (M.tryCatch x hdl) := by
  intro t₁ t₂ h
  rw [M.tryCatch, M.tryCatch, hx t₁ t₂ h]
  rcases x t₂ with ⟨res, cs, ws⟩
  cases res with
  | ok a => rfl
  | error e => dsimp only; rw [hh e t₁ t₂ h]

theorem NoGql.pure {α : Type} (a : α) : NoGql (Pure.pure a : M α) := fun _ _ _ => rfl

theorem NoGql.mPure {α : Type} (a : α) : NoGql (M.pure a) := fun _ _ _ => rfl

theorem NoGql.throw {α : Type} (e : JsError) : NoGql (M.throw e : M α) := fun _ _ _ => rfl

theorem NoGql.throwMcp {α : Type} (c : ErrCode) (m : Str) :
    NoGql (throwMcp c m : M α) := fun _ _ _ => rfl

theorem NoGql.consoleLog (m : Str) : NoGql (consoleLog m) := fun _ _ _ => rfl

theorem NoGql.callIssues (f : IssuesFilter) : NoGql (callIssues f) := by
  intro t₁ t₂ h
  show liftCall _ (t₁.issues f) = liftCall _ (t₂.issues f)
  rw [h.1]

theorem NoGql.callUsers (i : Str) : NoGql (callUsers i) := by
  intro t₁ t₂ h
  show liftCall _ (t₁.users i) = liftCall _ (t₂.users i)
  rw [h.2.1]

theorem NoGql.callTeamsById (i : Str) : NoGql (callTeamsById i) := by
  intro t₁ t₂ h
  show liftCall _ (t₁.teamsById i) = liftCall _ (t₂.teamsById i)
  rw [h.2.2.1]

theorem NoGql.callTeamsByKey (k : Str) : NoGql (callTeamsByKey k) := by
  intro t₁ t₂ h
  show liftCall _ (t₁.teamsByKey k) = liftCall _ (t₂.teamsByKey k)
  rw [h.2.2.2.1]

theorem NoGql.callWorkflowStatesById (i : Str) : NoGql (callWorkflowStatesById i) := by
  intro t₁ t₂ h
  show liftCall _ (t₁.workflowStatesById i) = liftCall _ (t₂.workflowStatesById i)
  rw [h.2.2.2.2.1]

theorem NoGql.callWorkflowStatesByTeam (i : Str) : NoGql (callWorkflowStatesByTeam i) := by
  intro t₁ t₂ h
  show liftCall _ (t₁.workflowStatesByTeam i) = liftCall _ (t₂.workflowStatesByTeam i)
  rw [h.2.2.2.2.2.1]

theorem NoGql.callIssueLabels : NoGql callIssueLabels := by
  intro t₁ t₂ h
  show liftCall _ (t₁.issueLabels ()) = liftCall _ (t₂.issueLabels ())
  rw [h.2.2.2.2.2.2.1]

theorem NoGql.ite {α : Type} {x y : M α} (c : Prop) [Decidable c] (hx : NoGql x)
    (hy : NoGql y) : NoGql (if c then x else y) := by
  by_cases h : c
  · rw [if_pos h]; exact hx
  · rw [if_neg h]; exact hy

theorem NoGql.findIssueFallback (args : GetTicketById.Args) (tk num : Option Str) :
    NoGql (GetTicketById.findIssueFallback args tk num) := by
  refine NoGql.tryCatch (NoGql.bind (NoGql.callIssues _) ?_) ?_
  · intro a
    cases a with
    | nil => exact NoGql.throwMcp _ _
    | cons i l => exact NoGql.mPure i
  · intro e
    exact NoGql.bind (NoGql.consoleLog _) (fun _ => NoGql.throwMcp _ _)

theorem NoGql.backfillAssignee (issue : IssueRec) :
    NoGql (GetTicketById.backfillAssignee issue) := by
  unfold GetTicketById.backfillAssignee
  refine NoGql.ite _ (NoGql.tryCatch (NoGql.bind (NoGql.callUsers _) ?_) ?_) (NoGql.mPure _)
  · intro a
    cases a with
    | nil => exact NoGql.pure _
    | cons u l => exact NoGql.pure _
  · intro e
    exact NoGql.bind (NoGql.consoleLog _) (fun _ => NoGql.pure _)

theorem NoGql.backfillTeam (issue : IssueRec) (tk : Option Str) :
    NoGql (GetTicketById.backfillTeam issue tk) := by
  unfold GetTicketById.backfillTeam
  refine NoGql.ite _ (NoGql.tryCatch (NoGql.bind (NoGql.callTeamsById _) ?_) ?_)
    (NoGql.ite _ (NoGql.tryCatch (NoGql.bind (NoGql.callTeamsByKey _) ?_) ?_)
      (NoGql.mPure _))
  · intro a
    cases a with
    | nil => exact NoGql.pure _
    | cons u l => exact NoGql.pure _
  · intro e
    exact NoGql.bind (NoGql.consoleLog _) (fun _ => NoGql.pure _)
  · intro a
    cases a with
    | nil => exact NoGql.pure _
    | cons u l => exact NoGql.pure _
  · intro e
    exact NoGql.bind (NoGql.consoleLog _) (fun _ => NoGql.pure _)

theorem NoGql.stateBackfill (stateId : Option Str) :
    NoGql (backfillStateById stateId) := by
  unfold backfillStateById
  refine NoGql.ite _ (NoGql.tryCatch (NoGql.bind (NoGql.callWorkflowStatesById _) ?_) ?_)
    (NoGql.mPure _)
  · intro a
    cases a with
    | nil => exact NoGql.pure _
    | cons u l => exact NoGql.pure _
  · intro e
    exact NoGql.bind (NoGql.consoleLog _) (fun _ => NoGql.pure _)

theorem NoGql.backfillLabels (issue : IssueRec) :
    NoGql (GetTicketById.backfillLabels issue) := by
  unfold GetTicketById.backfillLabels
  refine NoGql.ite _ (NoGql.tryCatch (NoGql.bind NoGql.callIssueLabels ?_) ?_)
    (NoGql.mPure _)
  · intro a
    exact NoGql.pure _
  · intro e
    exact NoGql.bind (NoGql.consoleLog _) (fun _ => NoGql.pure _)

theorem NoGql.fallbackPath (args : GetTicketById.Args) (tk num : Option Str) :
    NoGql (GetTicketById.fallbackPath args tk num) := by
  unfold GetTicketById.fallbackPath
  exact NoGql.bind (NoGql.findIssueFallback args tk num) (fun issue =>
    NoGql.bind (NoGql.backfillAssignee issue) (fun assignee =>
      NoGql.bind (NoGql.backfillTeam issue tk) (fun team =>
        NoGql.bind (NoGql.stateBackfill issue.stateId) (fun state =>
          NoGql.bind (NoGql.backfillLabels issue) (fun labels =>
            NoGql.pure _)))))

theorem handleRequest_gql_error (args : GetTicketById.Args) (t : Tracker) (e : Str)
    (hk : args.apiKey ≠ []) (hid : args.ticketId ≠ [])
    (hg : t.gqlIssue (GetTicketById.gqlQueryFor args.ticketId) = .error e) :
    GetTicketById.handleRequest args t =
      postGql args (GetTicketById.fallbackPath args
        (GetTicketById.parseTicketId args.ticketId).2.1
        (GetTicketById.parseTicketId args.ticketId).2.2 t) := by
  unfold GetTicketById.handleRequest
  rw [if_neg (by simp [isEmpty_false_of_ne_nil hk]),
    if_neg (by simp [isEmpty_false_of_ne_nil hid])]
  have hq : callGqlIssue (GetTicketById.gqlQueryFor args.ticketId) t
      = ⟨.error (.other e), [.gqlIssue (GetTicketById.gqlQueryFor args.ticketId)], []⟩ := by
    show liftCall _ (t.gqlIssue _) = _
    rw [hg]
    rfl
  have step1 := tryCatch_err (bind_err hq
    (fun response =>
      match response with
      | none => throwMcp .internalError (str "Ticket not found: " ++ args.ticketId)
      | some issue => pure (GetTicketById.formatGqlTicket issue)))
    (fun _graphqlError =>
      GetTicketById.fallbackPath args (GetTicketById.parseTicketId args.ticketId).2.1
        (GetTicketById.parseTicketId args.ticketId).2.2)
  rcases hres : (GetTicketById.fallbackPath args
      (GetTicketById.parseTicketId args.ticketId).2.1
      (GetTicketById.parseTicketId args.ticketId).2.2 t).res with e' | a
  · rw [hres] at step1
    rcases e' with e'' | m
    · have step2 := tryCatch_err step1
        (fun error =>
          match error with
          | .mcp _ => M.throw error
          | .other m => do
              consoleLog (str "Error retrieving ticket: " ++ m)
              M.throw (.mcp ⟨.internalError, str "Failed to retrieve ticket: " ++ m⟩))
      dsimp only at step2
      rw [step2, postGql, hres]
      simp [M.throw]
    · have step2 := tryCatch_err step1
        (fun error =>
          match error with
          | .mcp _ => M.throw error
          | .other m => do
              consoleLog (str "Error retrieving ticket: " ++ m)
              M.throw (.mcp ⟨.internalError, str "Failed to retrieve ticket: " ++ m⟩))
      dsimp only at step2
      rw [step2, postGql, hres]
      have hcomp : ((do
          consoleLog (str "Error retrieving ticket: " ++ m)
          M.throw (.mcp ⟨.internalError, str "Failed to retrieve ticket: " ++ m⟩)) :
            M TicketData) t
          = ⟨.error (.mcp ⟨.internalError, str "Failed to retrieve ticket: " ++ m⟩),
             [], [str "Error retrieving ticket: " ++ m]⟩ := rfl
      rw [hcomp]
      simp
  · rw [hres] at step1
    rw [tryCatch_ok step1, postGql, hres]
    simp

theorem callIssues_calls (f : IssuesFilter) (t : Tracker) :
    (callIssues f t).calls = [.issues f] := by
  show (liftCall (.issues f) (t.issues f)).calls = _
  rcases t.issues f with m | a <;> rfl

theorem postGql_calls (args : GetTicketById.Args) (o : Out TicketData) :
    (postGql args o).calls
      = .gqlIssue (GetTicketById.gqlQueryFor args.ticketId) :: o.calls := by
  unfold postGql
  rcases o with ⟨res, cs, ws⟩
  rcases res with e | a
  · rcases e with e' | m <;> rfl
  · rfl

theorem tryCatch_bind_call_calls {α β : Type} (c : Call) (prim : M α)
    (hc : ∀ t, (prim t).calls = [c]) (f : α → M β) (hdl : JsError → M β) (t : Tracker) :
    ∃ r, (M.tryCatch (prim >>= f) hdl t).calls = c :: r := by
  obtain ⟨r2, h2⟩ := tryCatch_calls_prefix (prim >>= f) hdl t
  obtain ⟨r3, h3⟩ := bind_calls_prefix prim f t
  exact ⟨r3 ++ r2, by rw [h2, h3, hc t]; simp⟩

theorem findIssueFallback_calls (args : GetTicketById.Args) (tk num : Option Str)
    (t : Tracker) :
    ∃ r, (GetTicketById.findIssueFallback args tk num t).calls
      = .issues (GetTicketById.fallbackFilter args.ticketId tk num) :: r := by
  unfold GetTicketById.findIssueFallback
  exact tryCatch_bind_call_calls _ _ (callIssues_calls _) _ _ t

theorem fallbackPath_calls (args : GetTicketById.Args) (tk num : Option Str)
    (t : Tracker) :
    ∃ r, (GetTicketById.fallbackPath args tk num t).calls
      = .issues (GetTicketById.fallbackFilter args.ticketId tk num) :: r := by
  unfold GetTicketById.fallbackPath
  obtain ⟨r1, h1⟩ := bind_calls_prefix (GetTicketById.findIssueFallback args tk num) _ t
  obtain ⟨r2, h2⟩ := findIssueFallback_calls args tk num t
  exact ⟨r2 ++ r1, by rw [h1, h2]; simp⟩

/-- C5: for every get-ticket request, the handler first attempts the single
structured GraphQL query; if that first path raises any exception it falls
back to the minimal filter query plus the individual backfills, and the
first path's error is swallowed entirely: the whole output (result, call
trace and warnings) is independent of which exception the first path threw. -/
theorem claim_C5 (args : GetTicketById.Args) (base : Tracker) (e₁ e₂ : Str)
    (hk : args.apiKey ≠ []) (hid : args.ticketId ≠ []) :
    GetTicketById.handleRequest args { base with gqlIssue := fun _ => .error e₁ }
      = GetTicketById.handleRequest args { base with gqlIssue := fun _ => .error e₂ } ∧
    ∃ rest,
      (GetTicketById.handleRequest args
          { base with gqlIssue := fun _ => .error e₁ }).calls
        = .gqlIssue (GetTicketById.gqlQueryFor args.ticketId)
          :: .issues (GetTicketById.fallbackFilter args.ticketId
               (GetTicketById.parseTicketId args.ticketId).2.1
               (GetTicketById.parseTicketId args.ticketId).2.2) :: rest := by
  have h₁ := handleRequest_gql_error args { base with gqlIssue := fun _ => .error e₁ }
    e₁ hk hid rfl
  have h₂ := handleRequest_gql_error args { base with gqlIssue := fun _ => .error e₂ }
    e₂ hk hid rfl
  constructor
  · rw [h₁, h₂, NoGql.fallbackPath args (GetTicketById.parseTicketId args.ticketId).2.1
      (GetTicketById.parseTicketId args.ticketId).2.2
      { base with gqlIssue := fun _ => .error e₁ }
      { base with gqlIssue := fun _ => .error e₂ }
      ⟨rfl, rfl, rfl, rfl, rfl, rfl, rfl, rfl, rfl, rfl, rfl⟩]
  · obtain ⟨r, hr⟩ := fallbackPath_calls args
      (GetTicketById.parseTicketId args.ticketId).2.1
      (GetTicketById.parseTicketId args.ticketId).2.2
      { base with gqlIssue := fun _ => .error e₁ }
    refine ⟨r, ?_⟩
    rw [h₁, postGql_calls, hr]

theorem findIssueFallback_zero (args : GetTicketById.Args) (tk num : Option Str)
    (t : Tracker)
    (hi : t.issues (GetTicketById.fallbackFilter args.ticketId tk num) = .ok []) :
    GetTicketById.findIssueFallback args tk num t
      = ⟨.error (.mcp ⟨.internalError, str "Could not find ticket: " ++ args.ticketId⟩),
         [.issues (GetTicketById.fallbackFilter args.ticketId tk num)],
         [str "Error finding ticket: " ++ (str "Ticket not found: " ++ args.ticketId)]⟩ := by
  unfold GetTicketById.findIssueFallback
  have hq : callIssues (GetTicketById.fallbackFilter args.ticketId tk num) t
      = ⟨.ok [], [.issues (GetTicketById.fallbackFilter args.ticketId tk num)], []⟩ := by
    show liftCall _ (t.issues _) = _
    rw [hi]
    rfl
  have h1 := bind_ok hq (fun issues =>
    match issues with
    | [] => throwMcp .internalError (str "Ticket not found: " ++ args.ticketId)
    | i :: _ => M.pure i)
  dsimp only at h1
  rw [tryCatch_err (by rw [h1]; rfl)]
  rfl

theorem fallbackPath_zero (args : GetTicketById.Args) (tk num : Option Str)
    (t : Tracker)
    (hi : t.issues (GetTicketById.fallbackFilter args.ticketId tk num) = .ok []) :
    GetTicketById.fallbackPath args tk num t
      = ⟨.error (.mcp ⟨.internalError, str "Could not find ticket: " ++ args.ticketId⟩),
         [.issues (GetTicketById.fallbackFilter args.ticketId tk num)],
         [str "Error finding ticket: " ++ (str "Ticket not found: " ++ args.ticketId)]⟩ := by
  unfold GetTicketById.fallbackPath
  rw [bind_err (findIssueFallback_zero args tk num t hi)]

theorem handleRequest_gql_none (args : GetTicketById.Args) (t : Tracker)
    (hk : args.apiKey ≠ []) (hid : args.ticketId ≠ [])
    (hg : t.gqlIssue (GetTicketById.gqlQueryFor args.ticketId) = .ok none) :
    GetTicketById.handleRequest args t =
      postGql args (GetTicketById.fallbackPath args
        (GetTicketById.parseTicketId args.ticketId).2.1
        (GetTicketById.parseTicketId args.ticketId).2.2 t) := by
  unfold GetTicketById.handleRequest
  rw [if_neg (by simp [isEmpty_false_of_ne_nil hk]),
    if_neg (by simp [isEmpty_false_of_ne_nil hid])]
  have hq : callGqlIssue (GetTicketById.gqlQueryFor args.ticketId) t
      = ⟨.ok none, [.gqlIssue (GetTicketById.gqlQueryFor args.ticketId)], []⟩ := by
    show liftCall _ (t.gqlIssue _) = _
    rw [hg]
    rfl
  have step0 := bind_ok hq (fun response =>
    match response with
    | none => throwMcp .internalError (str "Ticket not found: " ++ args.ticketId)
    | some issue => pure (GetTicketById.formatGqlTicket issue))
  dsimp only at step0
  rw [show ((throwMcp .internalError (str "Ticket not found: " ++ args.ticketId) :
      M TicketData) t) = ⟨.error (.mcp ⟨.internalError,
        str "Ticket not found: " ++ args.ticketId⟩), [], []⟩ from rfl] at step0
  simp only [List.append_nil] at step0
  have step1 := tryCatch_err step0
    (fun _graphqlError =>
      GetTicketById.fallbackPath args (GetTicketById.parseTicketId args.ticketId).2.1
        (GetTicketById.parseTicketId args.ticketId).2.2)
  rcases hres : (GetTicketById.fallbackPath args
      (GetTicketById.parseTicketId args.ticketId).2.1
      (GetTicketById.parseTicketId args.ticketId).2.2 t).res with e' | a
  · rw [hres] at step1
    rcases e' with e'' | m
    · have step2 := tryCatch_err step1
        (fun error =>
          match error with
          | .mcp _ => M.throw error
          | .other m => do
              consoleLog (str "Error retrieving ticket: " ++ m)
              M.throw (.mcp ⟨.internalError, str "Failed to retrieve ticket: " ++ m⟩))
      dsimp only at step2
      rw [step2, postGql, hres]
      simp [M.throw]
    · have step2 := tryCatch_err step1
        (fun error =>
          match error with
          | .mcp _ => M.throw error
          | .other m => do
              consoleLog (str "Error retrieving ticket: " ++ m)
              M.throw (.mcp ⟨.internalError, str "Failed to retrieve ticket: " ++ m⟩))
      dsimp only at step2
      rw [step2, postGql, hres]
      have hcomp : ((do
          consoleLog (str "Error retrieving ticket: " ++ m)
          M.throw (.mcp ⟨.internalError, str "Failed to retrieve ticket: " ++ m⟩)) :
            M TicketData) t
          = ⟨.error (.mcp ⟨.internalError, str "Failed to retrieve ticket: " ++ m⟩),
             [], [str "Error retrieving ticket: " ++ m]⟩ := rfl
      rw [hcomp]
      simp
  · rw [hres] at step1
    rw [tryCatch_ok step1, postGql, hres]
    simp

/-- C4 counterexample: with a tracker that returns zero matches everywhere,
resolving "ABC-7" issues a second remote call (the fallback filter query)
after the structured query's zero-match result, so the claim that no further
remote calls are made after the zero-match result is false; the final error
is the `Could not find ticket` wrapper (which does contain "ABC-7"). -/
theorem claim_C4_counterexample :
    (GetTicketById.handleRequest ⟨str "k", str "ABC-7"⟩ zeroTracker).calls
      = [.gqlIssue (.byTeamKeyAndNumber (str "ABC") (some 7)),
         .issues (.byTeamKeyAndNumber (str "ABC") (some 7))] ∧
    (GetTicketById.handleRequest ⟨str "k", str "ABC-7"⟩ zeroTracker).res
      = .error (.mcp ⟨.internalError, str "Could not find ticket: ABC-7"⟩) :=
  ⟨rfl, rfl⟩

/-- C4 (amended): resolving "ABC-7" where the tracker returns zero matches
(on the structured query and on the fallback filter query) fails with an
`InternalError` whose message `Could not find ticket: ABC-7` contains the
literal identifier; after the structured query's zero-match result exactly
one further remote call (the fallback filter query) is made, and none after
the fallback's zero-match result. -/
theorem claim_C4 (t : Tracker)
    (hg : t.gqlIssue (.byTeamKeyAndNumber (str "ABC") (some 7)) = .ok none)
    (hi : t.issues (.byTeamKeyAndNumber (str "ABC") (some 7)) = .ok []) :
    (GetTicketById.handleRequest ⟨str "k", str "ABC-7"⟩ t).res
      = .error (.mcp ⟨.internalError, str "Could not find ticket: ABC-7"⟩) ∧
    (GetTicketById.handleRequest ⟨str "k", str "ABC-7"⟩ t).calls
      = [.gqlIssue (.byTeamKeyAndNumber (str "ABC") (some 7)),
         .issues (.byTeamKeyAndNumber (str "ABC") (some 7))] ∧
    jsIncludes (str "Could not find ticket: ABC-7") (str "ABC-7") = true := by
  have h := handleRequest_gql_none ⟨str "k", str "ABC-7"⟩ t (by decide) (by decide) hg
  have hz := fallbackPath_zero ⟨str "k", str "ABC-7"⟩ (some (str "ABC"))
    (some (str "7")) t hi
  refine ⟨?_, ?_, by decide⟩
  · rw [h]
    show (postGql ⟨str "k", str "ABC-7"⟩ (GetTicketById.fallbackPath
        ⟨str "k", str "ABC-7"⟩ (some (str "ABC")) (some (str "7")) t)).res = _
    rw [hz]
    rfl
  · rw [h]
    show (postGql ⟨str "k", str "ABC-7"⟩ (GetTicketById.fallbackPath
        ⟨str "k", str "ABC-7"⟩ (some (str "ABC")) (some (str "7")) t)).calls = _
    rw [hz]
    rfl

/-- C4 witness: the amended theorem applied to the concrete zero-match
tracker. -/
theorem claim_C4_witness :
    (GetTicketById.handleRequest ⟨str "k", str "ABC-7"⟩ zeroTracker).res
      = .error (.mcp ⟨.internalError, str "Could not find ticket: ABC-7"⟩) ∧
    (GetTicketById.handleRequest ⟨str "k", str "ABC-7"⟩ zeroTracker).calls
      = [.gqlIssue (.byTeamKeyAndNumber (str "ABC") (some 7)),
         .issues (.byTeamKeyAndNumber (str "ABC") (some 7))] ∧
    jsIncludes (str "Could not find ticket: ABC-7") (str "ABC-7") = true :=
  claim_C4 zeroTracker rfl rfl

/-- C5 witness: the theorem applied at the concrete request "ABC-7" and two
trackers whose GraphQL capability throws different errors. -/
theorem claim_C5_witness :
    GetTicketById.handleRequest ⟨str "k", str "ABC-7"⟩
        { errTracker with gqlIssue := fun _ => .error (str "boom1") }
      = GetTicketById.handleRequest ⟨str "k", str "ABC-7"⟩
        { errTracker with gqlIssue := fun _ => .error (str "boom2") } ∧
    ∃ rest,
      (GetTicketById.handleRequest ⟨str "k", str "ABC-7"⟩
          { errTracker with gqlIssue := fun _ => .error (str "boom1") }).calls
        = .gqlIssue (GetTicketById.gqlQueryFor (str "ABC-7"))
          :: .issues (GetTicketById.fallbackFilter (str "ABC-7")
               (GetTicketById.parseTicketId (str "ABC-7")).2.1
               (GetTicketById.parseTicketId (str "ABC-7")).2.2) :: rest :=
  claim_C5 ⟨str "k", str "ABC-7"⟩ errTracker (str "boom1") (str "boom2")
    (by decide) (by decide)

/-- C1: for every identifier of the form `prefix-suffix` with a hyphen-free
prefix, a hyphen-free non-empty all-digit suffix, both the get-ticket and the
update-ticket resolution query the tracker by `(team.key == prefix, number ==
suffix)`; every hyphen-free identifier is queried by `id == identifier`; and
for every identifier the branch taken is by-team-and-number exactly when the
identifier contains a hyphen (so exactly one of the two branches runs). -/
theorem claim_C1 (pre suf : Str) (hpre : '-' ∉ pre) (hsuf : '-' ∉ suf)
    (hne : suf ≠ []) (hdig : ∀ c ∈ suf, c.isDigit = true) :
    GetTicketById.gqlQueryFor (pre ++ '-' :: suf)
      = .byTeamKeyAndNumber pre (some ((digitsToNat suf : Nat) : Int)) ∧
    UpdateTicket.issuesFilterFor (pre ++ '-' :: suf)
      = .byTeamKeyAndNumber pre (some ((digitsToNat suf : Nat) : Int)) ∧
    (∀ s : Str, '-' ∉ s →
      GetTicketById.gqlQueryFor s = .byId s ∧
      UpdateTicket.issuesFilterFor s = .byId s) ∧
    (∀ s : Str,
      ((∃ tk n, GetTicketById.gqlQueryFor s = .byTeamKeyAndNumber tk n) ↔ '-' ∈ s) ∧
      ((∃ tk n, UpdateTicket.issuesFilterFor s = .byTeamKeyAndNumber tk n) ↔ '-' ∈ s)) := by
  have hcontains : (pre ++ '-' :: suf).contains '-' = true :=
    (strContains_iff _ _).mpr (List.mem_append_right pre (List.mem_cons_self _ _))
  have hsplit := jsSplit_single_sep pre suf hpre hsuf
  have hparse := jsParseInt_digits suf hne hdig
  refine ⟨?_, ?_, ?_, ?_⟩
  · rw [GetTicketById.gqlQueryFor, GetTicketById.parseTicketId, if_pos hcontains]
    dsimp only
    rw [hsplit]
    simp [List.getD, truthy, isEmpty_false_of_ne_nil hne, hparse]
  · rw [UpdateTicket.issuesFilterFor, if_pos hcontains]
    dsimp only
    rw [hsplit]
    simp [List.getD, hparse]
  · intro s hs
    have hc : s.contains '-' = false := strContains_false s '-' hs
    constructor
    · rw [GetTicketById.gqlQueryFor, GetTicketById.parseTicketId,
        if_neg (by rw [hc]; simp)]
    · rw [UpdateTicket.issuesFilterFor, if_neg (by rw [hc]; simp)]
  · intro s
    constructor
    · by_cases hc : s.contains '-' = true
      · constructor
        · intro _
          exact (strContains_iff s '-').mp hc
        · intro _
          rw [GetTicketById.gqlQueryFor, GetTicketById.parseTicketId, if_pos hc]
          exact ⟨_, _, rfl⟩
      · have hc' : s.contains '-' = false := by
          rcases hb : s.contains '-' with _ | _
          · rfl
          · exact absurd hb hc
        constructor
        · intro ⟨tk, n, hq⟩
          rw [GetTicketById.gqlQueryFor, GetTicketById.parseTicketId,
            if_neg (by rw [hc']; simp)] at hq
          exact absurd hq (by simp)
        · intro hmem
          exact absurd ((strContains_iff s '-').mpr hmem) hc
    · by_cases hc : s.contains '-' = true
      · constructor
        · intro _
          exact (strContains_iff s '-').mp hc
        · intro _
          rw [UpdateTicket.issuesFilterFor, if_pos hc]
          exact ⟨_, _, rfl⟩
      · have hc' : s.contains '-' = false := by
          rcases hb : s.contains '-' with _ | _
          · rfl
          · exact absurd hb hc
        constructor
        · intro ⟨tk, n, hq⟩
          rw [UpdateTicket.issuesFilterFor, if_neg (by rw [hc']; simp)] at hq
          exact absurd hq (by simp)
        · intro hmem
          exact absurd ((strContains_iff s '-').mpr hmem) hc

/-- C1 witness: the theorem applied at the key "PLA-524" from the spec. -/
theorem claim_C1_witness :
    GetTicketById.gqlQueryFor (str "PLA" ++ '-' :: str "524")
      = .byTeamKeyAndNumber (str "PLA") (some ((digitsToNat (str "524") : Nat) : Int)) :=
  (claim_C1 (str "PLA") (str "524") (by decide) (by decide) (by decide)
    (by decide)).1

/-- C6 counterexample: for "ABC-x" the numeric part does not parse, yet the
handlers still query by `(team.key == "ABC", number == NaN)` and not by
`id == "ABC-x"`, so a non-parsing suffix is not treated as an opaque-ID
lookup. -/
theorem claim_C6_counterexample :
    UpdateTicket.issuesFilterFor (str "ABC-x")
      = .byTeamKeyAndNumber (str "ABC") none ∧
    GetTicketById.gqlQueryFor (str "ABC-x")
      = .byTeamKeyAndNumber (str "ABC") none ∧
    ¬ UpdateTicket.issuesFilterFor (str "ABC-x") = .byId (str "ABC-x") := by
  refine ⟨by decide, by decide, by decide⟩

/-- C6 (amended): for every identifier containing a hyphen, parsing splits
on hyphens and uses the first segment as the prefix and the second segment
as the number part (`parseInt` of it; `NaN` when it does not parse); the
resulting query is always the team-and-number query, never an opaque-ID
lookup; identifiers without a hyphen are queried as opaque IDs. -/
theorem claim_C6 (ticketId : Str) (h : '-' ∈ ticketId) :
    UpdateTicket.issuesFilterFor ticketId
      = .byTeamKeyAndNumber ((jsSplit '-' ticketId).headD [])
          (jsParseInt ((jsSplit '-' ticketId).getD 1 [])) ∧
    (∀ s : Str, UpdateTicket.issuesFilterFor ticketId ≠ .byId s) ∧
    (∀ s : Str, GetTicketById.gqlQueryFor ticketId ≠ .byId s) ∧
    (∀ s : Str, '-' ∉ s → UpdateTicket.issuesFilterFor s = .byId s) := by
  have hc : ticketId.contains '-' = true := (strContains_iff _ _).mpr h
  refine ⟨?_, ?_, ?_, ?_⟩
  · rw [UpdateTicket.issuesFilterFor, if_pos hc]
  · intro s
    rw [UpdateTicket.issuesFilterFor, if_pos hc]
    simp
  · intro s
    rw [GetTicketById.gqlQueryFor, GetTicketById.parseTicketId, if_pos hc]
    simp
  · intro s hs
    have hc' : s.contains '-' = false := strContains_false s '-' hs
    rw [UpdateTicket.issuesFilterFor, if_neg (by rw [hc']; simp)]

/-- C6 witness: the amended parsing rule evaluated at "ABC-x". -/
theorem claim_C6_witness :
    UpdateTicket.issuesFilterFor (str "ABC-x")
      = .byTeamKeyAndNumber ((jsSplit '-' (str "ABC-x")).headD [])
          (jsParseInt ((jsSplit '-' (str "ABC-x")).getD 1 [])) :=
  (claim_C6 (str "ABC-x") (by decide)).1

/-- C8: the display key of a record with a resolved team and no stored key
is `team.key + "-" + number` (on both the GraphQL path and the fallback
path), falling back to `"ISSUE-" + number` when the team is unresolved; a
record that already carries a (non-empty) native key reproduces that key
exactly when the team is resolved, and the derivation is idempotent:
re-deriving from the derived key reproduces it. -/
theorem claim_C8 (team : TeamRec) (n : Int) (k : Str) (hk : k ≠ []) :
    GetTicketById.gqlTicketKey (some team) n = team.key ++ str "-" ++ intToStr n ∧
    GetTicketById.gqlTicketKey none n = str "ISSUE-" ++ intToStr n ∧
    deriveTicketKey none (some team) n = team.key ++ str "-" ++ intToStr n ∧
    deriveTicketKey none none n = str "ISSUE-" ++ intToStr n ∧
    deriveTicketKey (some k) (some team) n = k ∧
    deriveTicketKey (some (deriveTicketKey none (some team) n)) (some team) n
      = deriveTicketKey none (some team) n := by
  refine ⟨rfl, rfl, rfl, rfl, ?_, ?_⟩
  · simp [deriveTicketKey, jsOrOpt, isEmpty_false_of_ne_nil hk]
  · simp [deriveTicketKey, jsOrOpt]

/-- C8 witness: a record carrying the native key "FE-7" with its team
resolved reproduces "FE-7" exactly. -/
theorem claim_C8_witness :
    deriveTicketKey (some (str "FE-7")) (some ⟨str "t1", str "Frontend", str "FE"⟩) 7
      = str "FE-7" :=
  (claim_C8 ⟨str "t1", str "Frontend", str "FE"⟩ 7 (str "FE-7")
    (by decide)).2.2.2.2.1

theorem calls_prefix_trans {α β : Type} (x : M α) (f : α → M β)
    (hdl : JsError → M β) (t : Tracker) (c : Call)
    (hx : ∃ r, (x t).calls = c :: r) :
    ∃ r, (M.tryCatch (x >>= f) hdl t).calls = c :: r := by
  obtain ⟨r0, h0⟩ := hx
  obtain ⟨r1, h1⟩ := bind_calls_prefix x f t
  obtain ⟨r2, h2⟩ := tryCatch_calls_prefix (x >>= f) hdl t
  exact ⟨r0 ++ r1 ++ r2, by rw [h2, h1, h0]; simp⟩

theorem findIssue_calls (args : UpdateTicketArgs) (t : Tracker) :
    ∃ r, (UpdateTicket.findIssue args t).calls
      = .issues (UpdateTicket.issuesFilterFor args.ticketId) :: r := by
  unfold UpdateTicket.findIssue
  exact tryCatch_bind_call_calls _ _ (callIssues_calls _) _ _ t

/-- C7: an update-ticket request with a priority outside the closed interval
0..4 fails with `InvalidParams` before any remote call (the output carries an
empty call trace); with a priority inside the interval (0 and 4 included)
validation passes and the handler proceeds to its first remote call, the
issue lookup. -/
theorem claim_C7 (args : UpdateTicketArgs) (t : Tracker) (p : Rat)
    (hk : args.apiKey ≠ []) (hid : args.ticketId ≠ [])
    (hp : args.priority = some p) :
    ((p < 0 ∨ 4 < p) →
      UpdateTicket.handleRequest args t
        = ⟨.error (.mcp ⟨.invalidParams, str "Priority must be between 0 and 4"⟩),
           [], []⟩) ∧
    (0 ≤ p → p ≤ 4 →
      ∃ rest, (UpdateTicket.handleRequest args t).calls
        = .issues (UpdateTicket.issuesFilterFor args.ticketId) :: rest) := by
  have hf : UpdateTicket.hasUpdateField args = true := by
    simp [UpdateTicket.hasUpdateField, hp]
  constructor
  · intro hout
    rw [UpdateTicket.handleRequest, if_neg (by simp [isEmpty_false_of_ne_nil hk]),
      if_neg (by simp [isEmpty_false_of_ne_nil hid]), if_neg (by simp [hf]),
      if_pos (by simp [UpdateTicket.priorityInvalid, hp, hout])]
    rfl
  · intro h0 h4
    have hpv : UpdateTicket.priorityInvalid args.priority = false := by
      simp [UpdateTicket.priorityInvalid, hp]
      exact ⟨h0, h4⟩
    rw [UpdateTicket.handleRequest, if_neg (by simp [isEmpty_false_of_ne_nil hk]),
      if_neg (by simp [isEmpty_false_of_ne_nil hid]), if_neg (by simp [hf]),
      if_neg (by simp [hpv])]
    exact calls_prefix_trans _ _ _ t _ (findIssue_calls args t)

/-- C7 witness: priority 5 is rejected with no remote call; priority 4 is
accepted and the lookup call is issued. -/
theorem claim_C7_witness :
    UpdateTicket.handleRequest
        ⟨str "k", str "T7", none, none, none, none, some 5, none, none⟩ errTracker
      = ⟨.error (.mcp ⟨.invalidParams, str "Priority must be between 0 and 4"⟩),
         [], []⟩ ∧
    ∃ rest,
      (UpdateTicket.handleRequest
          ⟨str "k", str "T7", none, none, none, none, some 4, none, none⟩
          errTracker).calls
        = .issues (UpdateTicket.issuesFilterFor (str "T7")) :: rest :=
  ⟨(claim_C7 ⟨str "k", str "T7", none, none, none, none, some 5, none, none⟩
      errTracker 5 (by decide) (by decide) rfl).1 (Or.inr (by norm_num)),
   (claim_C7 ⟨str "k", str "T7", none, none, none, none, some 4, none, none⟩
      errTracker 4 (by decide) (by decide) rfl).2 (by norm_num) (by norm_num)⟩

/-- C9: an update-ticket or update-project request in which every updatable
field is undefined fails with `InvalidParams` ("At least one field to update
is required") with an empty call trace, i.e. before any remote call. -/
theorem claim_C9 (aT : UpdateTicketArgs) (aP : UpdateProject.Args) (t : Tracker)
    (hk1 : aT.apiKey ≠ []) (hid1 : aT.ticketId ≠ [])
    (h1 : aT.title = none) (h2 : aT.description = none) (h3 : aT.stateId = none)
    (h4 : aT.assigneeId = none) (h5 : aT.priority = none) (h6 : aT.dueDate = none)
    (h7 : aT.estimate = none)
    (hk2 : aP.apiKey ≠ []) (hid2 : aP.projectId ≠ [])
    (g1 : aP.name = none) (g2 : aP.description = none) (g3 : aP.stateId = none)
    (g4 : aP.teamIds = none) (g5 : aP.startDate = none) (g6 : aP.targetDate = none)
    (g7 : aP.progress = none) (g8 : aP.icon = none) (g9 : aP.color = none) :
    UpdateTicket.handleRequest aT t
      = ⟨.error (.mcp ⟨.invalidParams,
          str "At least one field to update is required"⟩), [], []⟩ ∧
    UpdateTicketDone.handleRequest aT t
      = ⟨.error (.mcp ⟨.invalidParams,
          str "At least one field to update is required"⟩), [], []⟩ ∧
    UpdateProject.handleRequest aP t
      = ⟨.error (.mcp ⟨.invalidParams,
          str "At least one field to update is required"⟩), [], []⟩ := by
  have hfT : UpdateTicket.hasUpdateField aT = false := by
    simp [UpdateTicket.hasUpdateField, h1, h2, h3, h4, h5, h6, h7]
  have hfP : UpdateProject.hasUpdateField aP = false := by
    simp [UpdateProject.hasUpdateField, g1, g2, g3, g4, g5, g6, g7, g8, g9]
  refine ⟨?_, ?_, ?_⟩
  · rw [UpdateTicket.handleRequest, if_neg (by simp [isEmpty_false_of_ne_nil hk1]),
      if_neg (by simp [isEmpty_false_of_ne_nil hid1]), if_pos (by simp [hfT])]
    rfl
  · rw [UpdateTicketDone.handleRequest,
      if_neg (by simp [isEmpty_false_of_ne_nil hk1]),
      if_neg (by simp [isEmpty_false_of_ne_nil hid1]), if_pos (by simp [hfT])]
    rfl
  · rw [UpdateProject.handleRequest, if_neg (by simp [isEmpty_false_of_ne_nil hk2]),
      if_neg (by simp [isEmpty_false_of_ne_nil hid2]), if_pos (by simp [hfP])]
    rfl

/-- C9 witness: concrete empty update requests for a ticket and a project. -/
theorem claim_C9_witness :
    UpdateTicket.handleRequest
        ⟨str "k", str "T7", none, none, none, none, none, none, none⟩ errTracker
      = ⟨.error (.mcp ⟨.invalidParams,
          str "At least one field to update is required"⟩), [], []⟩ ∧
    UpdateTicketDone.handleRequest
        ⟨str "k", str "T7", none, none, none, none, none, none, none⟩ errTracker
      = ⟨.error (.mcp ⟨.invalidParams,
          str "At least one field to update is required"⟩), [], []⟩ ∧
    UpdateProject.handleRequest
        ⟨str "k", str "p1", none, none, none, none, none, none, none, none, none⟩
        errTracker
      = ⟨.error (.mcp ⟨.invalidParams,
          str "At least one field to update is required"⟩), [], []⟩ :=
  claim_C9 ⟨str "k", str "T7", none, none, none, none, none, none, none⟩
    ⟨str "k", str "p1", none, none, none, none, none, none, none, none, none⟩
    errTracker (by decide) (by decide) rfl rfl rfl rfl rfl rfl rfl
    (by decide) (by decide) rfl rfl rfl rfl rfl rfl rfl rfl rfl

/-- C2 counterexample: requesting state "done" on ticket FE-1 whose team
(`team1` / "Frontend" / key "FE") has no matching workflow state fails with
the fixed message `Failed to find 'Done' state: Could not find a 'Done'
state for this team`, which names neither the team's name, key nor ID. -/
theorem claim_C2_counterexample :
    (UpdateTicketDone.handleRequest doneArgs noDoneTracker).res
      = .error (.mcp ⟨.internalError,
          UpdateTicketDone.doneStateFailedMsg ++ UpdateTicketDone.doneStateMissingMsg⟩) ∧
    jsIncludes
      (UpdateTicketDone.doneStateFailedMsg ++ UpdateTicketDone.doneStateMissingMsg)
      (str "Frontend") = false ∧
    jsIncludes
      (UpdateTicketDone.doneStateFailedMsg ++ UpdateTicketDone.doneStateMissingMsg)
      (str "FE") = false ∧
    jsIncludes
      (UpdateTicketDone.doneStateFailedMsg ++ UpdateTicketDone.doneStateMissingMsg)
      (str "team1") = false :=
  ⟨rfl, by decide, by decide, by decide⟩

theorem callUpdateIssue_calls (i : Str) (d : UpdateData) (t : Tracker) :
    (callUpdateIssue i d t).calls = [.updateIssue i d] := by
  show (liftCall _ (t.updateIssue i d)).calls = _
  rcases t.updateIssue i d with m | a <;> rfl

theorem finishUpdate_calls (args : UpdateTicketArgs) (iss : IssueRec)
    (ud : UpdateData) (t : Tracker) :
    ∃ r, (UpdateTicketDone.finishUpdate args iss ud t).calls
      = .updateIssue iss.id ud :: r := by
  unfold UpdateTicketDone.finishUpdate
  obtain ⟨r1, h1⟩ := bind_calls_prefix (callUpdateIssue iss.id ud) _ t
  exact ⟨r1, by rw [h1, callUpdateIssue_calls]; simp⟩

theorem findIssue_found (args : UpdateTicketArgs) (t : Tracker) (iss : IssueRec)
    (hfind : t.issues (UpdateTicket.issuesFilterFor args.ticketId) = .ok [iss]) :
    UpdateTicket.findIssue args t
      = ⟨.ok iss, [.issues (UpdateTicket.issuesFilterFor args.ticketId)], []⟩ := by
  unfold UpdateTicket.findIssue
  have hq : callIssues (UpdateTicket.issuesFilterFor args.ticketId) t
      = ⟨.ok [iss], [.issues (UpdateTicket.issuesFilterFor args.ticketId)], []⟩ := by
    show liftCall _ (t.issues _) = _
    rw [hfind]
    rfl
  have h1 := bind_ok hq (fun issues =>
    match issues with
    | [] => throwMcp .internalError (str "Ticket not found: " ++ args.ticketId)
    | i :: _ => M.pure i)
  simp only [M.pure, List.append_nil, List.nil_append] at h1
  exact tryCatch_ok h1

theorem resolveEffectiveTeamId_of_teamId (args : UpdateTicketArgs) (iss : IssueRec)
    (t : Tracker) (tid : Str) (hteam : iss.teamId = some tid) (htid : tid ≠ []) :
    UpdateTicketDone.resolveEffectiveTeamId args iss t = ⟨.ok (some tid), [], []⟩ := by
  unfold UpdateTicketDone.resolveEffectiveTeamId
  rw [hteam, if_neg (by simp [truthy, isEmpty_false_of_ne_nil htid])]
  rfl

theorem resolveDoneState_run (args : UpdateTicketArgs) (iss : IssueRec) (t : Tracker)
    (s : Str) (tid : Str) (states : List StateRec) (ud : UpdateData)
    (hs : args.stateId = some s) (hdone : UpdateTicketDone.isDoneSynonym s = true)
    (hteam : iss.teamId = some tid) (htid : tid ≠ [])
    (hws : t.workflowStatesByTeam tid = .ok states) :
    UpdateTicketDone.resolveDoneState args iss ud t
      = (match states.find? UpdateTicketDone.doneStateMatch with
         | some doneState =>
            ⟨.ok { ud with stateId := some doneState.id },
             [.workflowStatesByTeam tid], []⟩
         | none =>
            ⟨.error (.mcp ⟨.internalError,
               UpdateTicketDone.doneStateFailedMsg ++ UpdateTicketDone.doneStateMissingMsg⟩),
             [.workflowStatesByTeam tid], []⟩) := by
  have hsne : s ≠ [] := by
    intro h
    rw [h] at hdone
    exact absurd hdone (by decide)
  unfold UpdateTicketDone.resolveDoneState
  rw [if_pos (by rw [hs]; simp [truthy, isEmpty_false_of_ne_nil hsne, hdone])]
  have htr : truthy (some tid) = true := by
    simp [truthy, isEmpty_false_of_ne_nil htid]
  have hq : callWorkflowStatesByTeam tid t
      = ⟨.ok states, [.workflowStatesByTeam tid], []⟩ := by
    show liftCall _ (t.workflowStatesByTeam tid) = _
    rw [hws]
    rfl
  have h1 := bind_ok (resolveEffectiveTeamId_of_teamId args iss t tid hteam htid)
    (fun effectiveTeamId =>
      if truthy effectiveTeamId then do
        let workflowStates ← callWorkflowStatesByTeam (effectiveTeamId.getD [])
        match workflowStates.find? UpdateTicketDone.doneStateMatch with
        | some doneState => pure { ud with stateId := some doneState.id }
        | none => throwMcp .internalError UpdateTicketDone.doneStateMissingMsg
      else
        throwMcp .internalError
          (str "Ticket does not have a team, cannot determine workflow states"))
  simp only [htr] at h1
  simp only [if_true, Option.getD_some] at h1
  have h2 := bind_ok hq (fun workflowStates =>
    match workflowStates.find? UpdateTicketDone.doneStateMatch with
    | some doneState => pure { ud with stateId := some doneState.id }
    | none => throwMcp .internalError UpdateTicketDone.doneStateMissingMsg)
  rcases hfound : states.find? UpdateTicketDone.doneStateMatch with _ | st
  · rw [hfound] at h2
    dsimp only at h2
    rw [h2] at h1
    simp only [throwMcp_apply, List.nil_append, List.append_nil] at h1
    rw [tryCatch_err h1]
    rfl
  · rw [hfound] at h2
    dsimp only at h2
    rw [h2] at h1
    simp only [pure_apply, List.nil_append, List.append_nil] at h1
    rw [tryCatch_ok h1]

theorem tryCatch_calls_of_body {α : Type} {x : M α} (hdl : JsError → M α) {t : Tracker}
    {cs : List Call} (h : (x t).calls = cs) :
    ∃ r, (M.tryCatch x hdl t).calls = cs ++ r := by
  obtain ⟨r, hr⟩ := tryCatch_calls_prefix x hdl t
  exact ⟨r, by rw [hr, h]⟩

/-- C2 (amended): when an update-ticket request names the target state
"done"/"completed" (case-insensitive), the handler looks up the issue's
team, lists that team's workflow states and selects the first one whose
lower-cased name is "done" or "completed" or whose type is "completed",
sending the update with that state's ID; when no state matches, the request
fails with the fixed message `Failed to find 'Done' state: Could not find a
'Done' state for this team` - a descriptive error that does not name the
team. -/
theorem claim_C2 (args : UpdateTicketArgs) (t : Tracker) (s : Str) (iss : IssueRec)
    (tid : Str) (states : List StateRec)
    (hk : args.apiKey ≠ []) (hid : args.ticketId ≠ [])
    (hs : args.stateId = some s) (hdone : UpdateTicketDone.isDoneSynonym s = true)
    (hpr : args.priority = none)
    (hfind : t.issues (UpdateTicket.issuesFilterFor args.ticketId) = .ok [iss])
    (hteam : iss.teamId = some tid) (htid : tid ≠ [])
    (hws : t.workflowStatesByTeam tid = .ok states) :
    (∀ st, states.find? UpdateTicketDone.doneStateMatch = some st →
      ∃ ud rest, (UpdateTicketDone.handleRequest args t).calls
          = .issues (UpdateTicket.issuesFilterFor args.ticketId)
            :: .workflowStatesByTeam tid :: .updateIssue iss.id ud :: rest
        ∧ ud.stateId = some st.id) ∧
    (states.find? UpdateTicketDone.doneStateMatch = none →
      (UpdateTicketDone.handleRequest args t).res
        = .error (.mcp ⟨.internalError,
            UpdateTicketDone.doneStateFailedMsg
              ++ UpdateTicketDone.doneStateMissingMsg⟩)) := by
  have hfT : UpdateTicket.hasUpdateField args = true := by
    simp [UpdateTicket.hasUpdateField, hs]
  have hpi : UpdateTicket.priorityInvalid args.priority = false := by
    rw [hpr]
    rfl
  rw [UpdateTicketDone.handleRequest, if_neg (by simp [isEmpty_false_of_ne_nil hk]),
    if_neg (by simp [isEmpty_false_of_ne_nil hid]), if_neg (by simp [hfT]),
    if_neg (by simp [hpi])]
  have hfi := findIssue_found args t iss hfind
  have hrds := resolveDoneState_run args iss t s tid states
    (UpdateTicketDone.initUpdateData args) hs hdone hteam htid hws
  constructor
  · intro st hfound
    rw [hfound] at hrds
    dsimp only at hrds
    have h2 := bind_ok hrds (fun updateData =>
      UpdateTicketDone.finishUpdate args iss updateData)
    have h3 := bind_ok hfi (fun issue =>
      UpdateTicketDone.resolveDoneState args issue (UpdateTicketDone.initUpdateData args)
        >>= fun updateData => UpdateTicketDone.finishUpdate args issue updateData)
    rw [h2] at h3
    obtain ⟨rfin, hfin⟩ := finishUpdate_calls args iss
      { UpdateTicketDone.initUpdateData args with stateId := some st.id } t
    have hcalls := congrArg Out.calls h3
    dsimp only at hcalls
    rw [hfin] at hcalls
    obtain ⟨r2, hpre⟩ := tryCatch_calls_of_body
      (fun error =>
        match error with
        | .mcp _ => M.throw error
        | .other m => do
            consoleLog (str "Error updating ticket: " ++ m)
            M.throw (.mcp ⟨.internalError, str "Failed to update ticket: " ++ m⟩))
      hcalls
    refine ⟨{ UpdateTicketDone.initUpdateData args with stateId := some st.id },
      rfin ++ r2, ?_, rfl⟩
    rw [hpre]
    simp
  · intro hnone
    rw [hnone] at hrds
    dsimp only at hrds
    have h2 := bind_err hrds (fun updateData =>
      UpdateTicketDone.finishUpdate args iss updateData)
    have h3 := bind_ok hfi (fun issue =>
      UpdateTicketDone.resolveDoneState args issue (UpdateTicketDone.initUpdateData args)
        >>= fun updateData => UpdateTicketDone.finishUpdate args issue updateData)
    rw [h2] at h3
    dsimp only at h3
    rw [tryCatch_err h3]
    rfl

/-- C2 witness: the amended resolution applied to a tracker whose team has
states Todo/unstarted and Done/completed, as in the spec scenario. -/
theorem claim_C2_witness :
    ∃ ud rest, (UpdateTicketDone.handleRequest doneArgs withDoneTracker).calls
        = .issues (UpdateTicket.issuesFilterFor (str "FE-1"))
          :: .workflowStatesByTeam (str "team1")
          :: .updateIssue (str "iss1") ud :: rest
      ∧ ud.stateId = some (str "s2") :=
  (claim_C2 doneArgs withDoneTracker (str "done") refsIssue (str "team1")
      [⟨str "s1", str "Todo", str "unstarted"⟩,
       ⟨str "s2", str "Done", str "completed"⟩]
      (by decide) (by decide) rfl (by decide) rfl rfl rfl (by decide) rfl).1
    ⟨str "s2", str "Done", str "completed"⟩ (by decide)

/-- C3 counterexample: a ticket whose four related-entity lookups all fail
still resolves, but with `null` assignee, team and state rather than
"Unknown" placeholders; only labels degrade to the
`name "Unknown" / color "#cccccc"` placeholder. -/
theorem claim_C3_counterexample :
    (GetTicketById.handleRequest ⟨str "k", str "ABC-7"⟩ failLookupsTracker).res.map
        (fun td => (td.assignee, td.team, td.state, td.labels))
      = .ok (none, none, none,
          [{ id := str "lab1", name := str "Unknown", color := str "#cccccc" }]) := rfl

theorem backfillAssignee_err (iss : IssueRec) (t : Tracker) (m : Str)
    (ha : truthy iss.assigneeId = true)
    (hu : t.users (iss.assigneeId.getD []) = .error m) :
    GetTicketById.backfillAssignee iss t
      = ⟨.ok none, [.users (iss.assigneeId.getD [])],
         [str "Error fetching assignee: " ++ m]⟩ := by
  unfold GetTicketById.backfillAssignee
  rw [if_pos (by rw [ha])]
  have hq : callUsers (iss.assigneeId.getD []) t
      = ⟨.error (.other m), [.users (iss.assigneeId.getD [])], []⟩ := by
    show liftCall _ (t.users _) = _
    rw [hu]
    rfl
  rw [tryCatch_err (bind_err hq _)]
  rfl

theorem backfillTeam_err (iss : IssueRec) (tk : Option Str) (t : Tracker) (m : Str)
    (hteam : truthy iss.teamId = true)
    (hb : t.teamsById (iss.teamId.getD []) = .error m) :
    GetTicketById.backfillTeam iss tk t
      = ⟨.ok none, [.teamsById (iss.teamId.getD [])],
         [str "Error fetching team: " ++ m]⟩ := by
  unfold GetTicketById.backfillTeam
  rw [if_pos (by rw [hteam])]
  have hq : callTeamsById (iss.teamId.getD []) t
      = ⟨.error (.other m), [.teamsById (iss.teamId.getD [])], []⟩ := by
    show liftCall _ (t.teamsById _) = _
    rw [hb]
    rfl
  rw [tryCatch_err (bind_err hq _)]
  rfl

theorem backfillState_err (sid : Option Str) (t : Tracker) (m : Str)
    (hst : truthy sid = true)
    (hwf : t.workflowStatesById (sid.getD []) = .error m) :
    backfillStateById sid t
      = ⟨.ok none, [.workflowStatesById (sid.getD [])],
         [str "Error fetching state: " ++ m]⟩ := by
  unfold backfillStateById
  rw [if_pos (by rw [hst])]
  have hq : callWorkflowStatesById (sid.getD []) t
      = ⟨.error (.other m), [.workflowStatesById (sid.getD [])], []⟩ := by
    show liftCall _ (t.workflowStatesById _) = _
    rw [hwf]
    rfl
  rw [tryCatch_err (bind_err hq _)]
  rfl

theorem backfillLabels_err (iss : IssueRec) (t : Tracker) (m : Str)
    (hlab : 0 < (iss.labelIds.getD []).length)
    (hl : t.issueLabels () = .error m) :
    GetTicketById.backfillLabels iss t
      = ⟨.ok ((iss.labelIds.getD []).map GetTicketById.labelPlaceholder),
         [.issueLabels], [str "Error fetching labels: " ++ m]⟩ := by
  unfold GetTicketById.backfillLabels
  rw [if_pos hlab]
  have hq : callIssueLabels t = ⟨.error (.other m), [.issueLabels], []⟩ := by
    show liftCall _ (t.issueLabels ()) = _
    rw [hl]
    rfl
  rw [tryCatch_err (bind_err hq _)]
  rfl

theorem findIssueFallback_found (args : GetTicketById.Args) (tk num : Option Str)
    (t : Tracker) (iss : IssueRec)
    (hfind : t.issues (GetTicketById.fallbackFilter args.ticketId tk num) = .ok [iss]) :
    GetTicketById.findIssueFallback args tk num t
      = ⟨.ok iss, [.issues (GetTicketById.fallbackFilter args.ticketId tk num)], []⟩ := by
  unfold GetTicketById.findIssueFallback
  have hq : callIssues (GetTicketById.fallbackFilter args.ticketId tk num) t
      = ⟨.ok [iss], [.issues (GetTicketById.fallbackFilter args.ticketId tk num)], []⟩ := by
    show liftCall _ (t.issues _) = _
    rw [hfind]
    rfl
  have h1 := bind_ok hq (fun issues =>
    match issues with
    | [] => throwMcp .internalError (str "Ticket not found: " ++ args.ticketId)
    | i :: _ => M.pure i)
  simp only [M.pure, List.append_nil, List.nil_append] at h1
  exact tryCatch_ok h1

theorem fallbackPath_allfail (args : GetTicketById.Args) (tk num : Option Str)
    (t : Tracker) (iss : IssueRec) (eu et es el : Str)
    (hfind : t.issues (GetTicketById.fallbackFilter args.ticketId tk num) = .ok [iss])
    (hu : t.users (iss.assigneeId.getD []) = .error eu)
    (hb : t.teamsById (iss.teamId.getD []) = .error et)
    (hwf : t.workflowStatesById (iss.stateId.getD []) = .error es)
    (hl : t.issueLabels () = .error el)
    (ha : truthy iss.assigneeId = true)
    (hteam : truthy iss.teamId = true)
    (hst : truthy iss.stateId = true)
    (hlab : 0 < (iss.labelIds.getD []).length) :
    GetTicketById.fallbackPath args tk num t
      = ⟨.ok
          { id := iss.id
            title := iss.title
            description := iss.description
            number := iss.number
            key := deriveTicketKey iss.key none iss.number
            createdAt := iss.createdAt
            updatedAt := iss.updatedAt
            dueDate := iss.dueDate
            estimate := iss.estimate
            priority := iss.priority
            assignee := none
            team := none
            state := none
            labels := (iss.labelIds.getD []).map GetTicketById.labelPlaceholder
            url := iss.url },
         [.issues (GetTicketById.fallbackFilter args.ticketId tk num),
          .users (iss.assigneeId.getD []), .teamsById (iss.teamId.getD []),
          .workflowStatesById (iss.stateId.getD []), .issueLabels],
         [str "Error fetching assignee: " ++ eu, str "Error fetching team: " ++ et,
          str "Error fetching state: " ++ es, str "Error fetching labels: " ++ el]⟩ := by
  unfold GetTicketById.fallbackPath
  have cL := bind_ok (backfillLabels_err iss t el hlab hl) (fun labels =>
    (pure { id := iss.id, title := iss.title, description := iss.description,
            number := iss.number,
            key := deriveTicketKey iss.key none iss.number,
            createdAt := iss.createdAt, updatedAt := iss.updatedAt,
            dueDate := iss.dueDate, estimate := iss.estimate,
            priority := iss.priority, assignee := none, team := none,
            state := none, labels := labels, url := iss.url } : M TicketData))
  simp only [pure_apply, List.append_nil, List.nil_append] at cL
  have cS := bind_ok (backfillState_err iss.stateId t es hst hwf) (fun state =>
    GetTicketById.backfillLabels iss >>= fun labels =>
      (pure { id := iss.id, title := iss.title, description := iss.description,
              number := iss.number,
              key := deriveTicketKey iss.key none iss.number,
              createdAt := iss.createdAt, updatedAt := iss.updatedAt,
              dueDate := iss.dueDate, estimate := iss.estimate,
              priority := iss.priority, assignee := none, team := none,
              state := state, labels := labels, url := iss.url } : M TicketData))
  rw [cL] at cS
  simp only [List.cons_append, List.nil_append] at cS
  have cT := bind_ok (backfillTeam_err iss tk t et hteam hb) (fun team =>
    backfillStateById iss.stateId >>= fun state =>
      GetTicketById.backfillLabels iss >>= fun labels =>
        (pure { id := iss.id, title := iss.title, description := iss.description,
                number := iss.number,
                key := deriveTicketKey iss.key team iss.number,
                createdAt := iss.createdAt, updatedAt := iss.updatedAt,
                dueDate := iss.dueDate, estimate := iss.estimate,
                priority := iss.priority, assignee := none, team := team,
                state := state, labels := labels, url := iss.url } : M TicketData))
  rw [cS] at cT
  simp only [List.cons_append, List.nil_append] at cT
  have cA := bind_ok (backfillAssignee_err iss t eu ha hu) (fun assignee =>
    GetTicketById.backfillTeam iss tk >>= fun team =>
      backfillStateById iss.stateId >>= fun state =>
        GetTicketById.backfillLabels iss >>= fun labels =>
          (pure { id := iss.id, title := iss.title, description := iss.description,
                  number := iss.number,
                  key := deriveTicketKey iss.key team iss.number,
                  createdAt := iss.createdAt, updatedAt := iss.updatedAt,
                  dueDate := iss.dueDate, estimate := iss.estimate,
                  priority := iss.priority, assignee := assignee, team := team,
                  state := state, labels := labels, url := iss.url } : M TicketData))
  rw [cT] at cA
  simp only [List.cons_append, List.nil_append] at cA
  have cTop := bind_ok (findIssueFallback_found args tk num t iss hfind) (fun issue =>
    GetTicketById.backfillAssignee issue >>= fun assignee =>
      GetTicketById.backfillTeam issue tk >>= fun team =>
        backfillStateById issue.stateId >>= fun state =>
          GetTicketById.backfillLabels issue >>= fun labels =>
            (pure { id := issue.id, title := issue.title,
                    description := issue.description, number := issue.number,
                    key := deriveTicketKey issue.key team issue.number,
                    createdAt := issue.createdAt, updatedAt := issue.updatedAt,
                    dueDate := issue.dueDate, estimate := issue.estimate,
                    priority := issue.priority, assignee := assignee, team := team,
                    state := state, labels := labels, url := issue.url } : M TicketData))
  rw [cA] at cTop
  simp only [List.cons_append, List.nil_append] at cTop
  exact cTop

/-- C3 (amended): a ticket whose related-entity lookups (assignee, team,
workflow state, labels) all fail during backfill still resolves to a
complete record rather than raising; no single failure aborts the
operation. Failed assignee/team/state lookups yield `null` in the output,
and only failed label lookups are substituted with the placeholder
`name "Unknown" / color "#cccccc"`. -/
theorem claim_C3 (args : GetTicketById.Args) (t : Tracker) (iss : IssueRec)
    (eg eu et es el : Str)
    (hk : args.apiKey ≠ []) (hid : args.ticketId ≠ [])
    (hgql : ∀ q, t.gqlIssue q = .error eg)
    (hfind : ∀ f, t.issues f = .ok [iss])
    (hu : ∀ i, t.users i = .error eu)
    (hb : ∀ i, t.teamsById i = .error et)
    (hwf : ∀ i, t.workflowStatesById i = .error es)
    (hl : t.issueLabels () = .error el)
    (ha : truthy iss.assigneeId = true)
    (hteam : truthy iss.teamId = true)
    (hst : truthy iss.stateId = true)
    (hlab : 0 < (iss.labelIds.getD []).length) :
    ∃ td : TicketData,
      (GetTicketById.handleRequest args t).res = .ok td ∧
      td.assignee = none ∧ td.team = none ∧ td.state = none ∧
      td.labels = (iss.labelIds.getD []).map GetTicketById.labelPlaceholder := by
  have hfp := fallbackPath_allfail args (GetTicketById.parseTicketId args.ticketId).2.1
    (GetTicketById.parseTicketId args.ticketId).2.2 t iss eu et es el
    (hfind _) (hu _) (hb _) (hwf _) hl ha hteam hst hlab
  have h := handleRequest_gql_error args t eg hk hid (hgql _)
  refine ⟨{ id := iss.id, title := iss.title, description := iss.description,
            number := iss.number, key := deriveTicketKey iss.key none iss.number,
            createdAt := iss.createdAt, updatedAt := iss.updatedAt,
            dueDate := iss.dueDate, estimate := iss.estimate,
            priority := iss.priority, assignee := none, team := none,
            state := none,
            labels := (iss.labelIds.getD []).map GetTicketById.labelPlaceholder,
            url := iss.url }, ?_, rfl, rfl, rfl, rfl⟩
  rw [h, hfp, postGql]

/-- C3 witness: the amended theorem applied to the concrete tracker whose
lookups all fail. -/
theorem claim_C3_witness :
    ∃ td : TicketData,
      (GetTicketById.handleRequest ⟨str "k", str "ABC-7"⟩ failLookupsTracker).res
        = .ok td ∧
      td.assignee = none ∧ td.team = none ∧ td.state = none ∧
      td.labels = (refsIssue.labelIds.getD []).map GetTicketById.labelPlaceholder :=
  claim_C3 ⟨str "k", str "ABC-7"⟩ failLookupsTracker refsIssue
    (str "down") (str "down") (str "down") (str "down") (str "down")
    (by decide) (by decide) (fun _ => rfl) (fun _ => rfl) (fun _ => rfl)
    (fun _ => rfl) (fun _ => rfl) rfl (by decide) (by decide) (by decide) (by decide)

theorem effLimit_toNat (limit : Option Int) :
    (GetProjects.effLimit limit).toNat
      = (match limit with
         | some l => if 0 < l then (min l 50).toNat else 10
         | none => 10) := by
  rcases limit with _ | l
  · rfl
  · show (if 0 < l then min l 50 else 10).toNat
      = if 0 < l then (min l 50).toNat else 10
    by_cases h : 0 < l
    · rw [if_pos h, if_pos h]
    · rw [if_neg h, if_neg h]
      rfl

theorem searchPath_run (args : GetProjects.Args) (limit : Int) (t : Tracker)
    (r : Except Str (List ProjectRec)) (hps : t.projects none (limit * 2) = r) :
    GetProjects.searchPath args limit t
      = (match r with
         | .ok ps =>
            ⟨.ok ((ps.filter (GetProjects.projectMatchesSearch
                (jsToLower (args.search.getD [])))).take limit.toNat),
             [.projects none (limit * 2)], []⟩
         | .error m => ⟨.error (.other m), [.projects none (limit * 2)], []⟩) := by
  unfold GetProjects.searchPath
  rcases r with m | ps
  · have hq : callProjects none (limit * 2) t
        = ⟨.error (.other m), [.projects none (limit * 2)], []⟩ := by
      show liftCall _ (t.projects _ _) = _
      rw [hps]
      rfl
    rw [bind_err hq]
  · have hq : callProjects none (limit * 2) t
        = ⟨.ok ps, [.projects none (limit * 2)], []⟩ := by
      show liftCall _ (t.projects _ _) = _
      rw [hps]
      rfl
    have h1 := bind_ok hq (fun projects =>
      (pure ((projects.filter (GetProjects.projectMatchesSearch
        (jsToLower (args.search.getD [])))).take limit.toNat) : M (List ProjectRec)))
    simp only [pure_apply, List.append_nil, List.nil_append] at h1
    exact h1

theorem getProjects_run_plain (args : GetProjects.Args) (t : Tracker)
    (r : Except Str (List ProjectRec))
    (hkey : args.apiKey ≠ []) (hsr : truthy args.search = false)
    (hps : t.projects (GetProjects.statusFilter args.status)
      (GetProjects.effLimit args.limit) = r) :
    GetProjects.handleRequest args t
      = (match r with
         | .ok ps =>
            ⟨.ok { projects := ps.map GetProjects.formatProject,
                   total := (ps.map GetProjects.formatProject).length },
             [.projects (GetProjects.statusFilter args.status)
                (GetProjects.effLimit args.limit)], []⟩
         | .error m =>
            ⟨.error (.mcp ⟨.internalError,
               str "Failed to fetch Linear projects: " ++ m⟩),
             [.projects (GetProjects.statusFilter args.status)
                (GetProjects.effLimit args.limit)],
             [str "Error fetching projects: " ++ m]⟩) := by
  unfold GetProjects.handleRequest
  rw [if_neg (by simp [isEmpty_false_of_ne_nil hkey]), hsr]
  rw [if_neg (by simp)]
  rcases r with m | ps
  · have hq : callProjects (GetProjects.statusFilter args.status)
        (GetProjects.effLimit args.limit) t
        = ⟨.error (.other m), [.projects (GetProjects.statusFilter args.status)
            (GetProjects.effLimit args.limit)], []⟩ := by
      show liftCall _ (t.projects _ _) = _
      rw [hps]
      rfl
    have h1 := bind_err hq (fun nodes =>
      (pure { projects := nodes.map GetProjects.formatProject,
              total := (nodes.map GetProjects.formatProject).length } :
        M GetProjects.ResponseData))
    rw [tryCatch_err h1]
    rfl
  · have hq : callProjects (GetProjects.statusFilter args.status)
        (GetProjects.effLimit args.limit) t
        = ⟨.ok ps, [.projects (GetProjects.statusFilter args.status)
            (GetProjects.effLimit args.limit)], []⟩ := by
      show liftCall _ (t.projects _ _) = _
      rw [hps]
      rfl
    have h1 := bind_ok hq (fun nodes =>
      (pure { projects := nodes.map GetProjects.formatProject,
              total := (nodes.map GetProjects.formatProject).length } :
        M GetProjects.ResponseData))
    simp only [pure_apply, List.append_nil, List.nil_append] at h1
    rw [tryCatch_ok h1]

theorem getProjects_run_search (args : GetProjects.Args) (t : Tracker)
    (r : Except Str (List ProjectRec))
    (hkey : args.apiKey ≠ []) (hsr : truthy args.search = true)
    (hps : t.projects none (GetProjects.effLimit args.limit * 2) = r) :
    GetProjects.handleRequest args t
      = (match r with
         | .ok ps =>
            ⟨.ok { projects :=
                    ((ps.filter (GetProjects.projectMatchesSearch
                        (jsToLower (args.search.getD [])))).take
                      (GetProjects.effLimit args.limit).toNat).map
                      GetProjects.formatProject,
                   total :=
                    (((ps.filter (GetProjects.projectMatchesSearch
                        (jsToLower (args.search.getD [])))).take
                      (GetProjects.effLimit args.limit).toNat).map
                      GetProjects.formatProject).length },
             [.projects none (GetProjects.effLimit args.limit * 2)], []⟩
         | .error m =>
            ⟨.error (.mcp ⟨.internalError,
               str "Failed to fetch Linear projects: " ++ m⟩),
             [.projects none (GetProjects.effLimit args.limit * 2)],
             [str "Error fetching projects: " ++ m]⟩) := by
  unfold GetProjects.handleRequest
  rw [if_neg (by simp [isEmpty_false_of_ne_nil hkey]), hsr]
  rw [if_pos rfl]
  rcases r with m | ps
  · have hsp := searchPath_run args (GetProjects.effLimit args.limit) t (.error m) hps
    dsimp only at hsp
    have h1 := bind_err hsp (fun nodes =>
      (pure { projects := nodes.map GetProjects.formatProject,
              total := (nodes.map GetProjects.formatProject).length } :
        M GetProjects.ResponseData))
    rw [tryCatch_err h1]
    rfl
  · have hsp := searchPath_run args (GetProjects.effLimit args.limit) t (.ok ps) hps
    dsimp only at hsp
    have h1 := bind_ok hsp (fun nodes =>
      (pure { projects := nodes.map GetProjects.formatProject,
              total := (nodes.map GetProjects.formatProject).length } :
        M GetProjects.ResponseData))
    simp only [pure_apply, List.append_nil, List.nil_append] at h1
    rw [tryCatch_ok h1]

/-- C10: whenever the get-projects handler returns a project list (against a
tracker whose listing capability honours the `first` pagination bound), the
number of projects returned is at most `min(limit, 50)` when a positive
limit is supplied and at most 10 otherwise; `total` equals that count; and
in the search path the result is exactly the fetched page filtered by the
case-insensitive substring match on name or description and truncated to
the same bound. -/
theorem claim_C10 (args : GetProjects.Args) (t : Tracker)
    (resp : GetProjects.ResponseData)
    (hbound : ∀ f n r, t.projects f n = .ok r → r.length ≤ n.toNat)
    (hok : (GetProjects.handleRequest args t).res = .ok resp) :
    resp.projects.length ≤ (match args.limit with
      | some l => if 0 < l then (min l 50).toNat else 10
      | none => 10) ∧
    resp.total = resp.projects.length ∧
    (∀ s ps, args.search = some s → s ≠ [] →
      t.projects none (GetProjects.effLimit args.limit * 2) = .ok ps →
      resp.projects
        = ((ps.filter (GetProjects.projectMatchesSearch (jsToLower s))).take
            (GetProjects.effLimit args.limit).toNat).map GetProjects.formatProject) := by
  by_cases hkey : args.apiKey = []
  · rw [GetProjects.handleRequest] at hok
    rw [if_pos (by simp [hkey])] at hok
    rw [tryCatch_err (show (throwMcp .invalidParams (str "API key is required") :
        M GetProjects.ResponseData) t
      = ⟨.error (.mcp ⟨.invalidParams, str "API key is required"⟩), [], []⟩ from rfl)]
      at hok
    exact absurd hok (by simp [M.throw])
  · have hne : args.apiKey ≠ [] := hkey
    by_cases hsearch : truthy args.search = true
    · rcases hargs : args.search with _ | s
      · rw [hargs] at hsearch
        exact absurd hsearch (by simp [truthy])
      · have hsne : s ≠ [] := by
          rw [hargs] at hsearch
          intro hnil
          rw [hnil] at hsearch
          exact absurd hsearch (by decide)
        rcases hr : t.projects none (GetProjects.effLimit args.limit * 2) with m | ps
        · have hrun := getProjects_run_search args t (.error m) hne hsearch hr
          rw [hrun] at hok
          exact absurd hok (by simp)
        · have hrun := getProjects_run_search args t (.ok ps) hne hsearch hr
          rw [hrun] at hok
          dsimp only at hok
          injection hok with h
          refine ⟨?_, ?_, ?_⟩
          · rw [← h, List.length_map, List.length_take, ← effLimit_toNat]
            exact min_le_left _ _
          · rw [← h]
          · intro s' ps' hs' hsne' hps'
            have hss : s = s' := Option.some.inj hs'
            have hpp : ps = ps' := Except.ok.inj hps'
            rw [← h, ← hss, ← hpp]
            simp [hargs]
    · have hsf : truthy args.search = false := by
        rcases hb : truthy args.search with _ | _
        · rfl
        · exact absurd hb hsearch
      rcases hr : t.projects (GetProjects.statusFilter args.status)
          (GetProjects.effLimit args.limit) with m | ps
      · have hrun := getProjects_run_plain args t (.error m) hne hsf hr
        rw [hrun] at hok
        exact absurd hok (by simp)
      · have hrun := getProjects_run_plain args t (.ok ps) hne hsf hr
        rw [hrun] at hok
        dsimp only at hok
        injection hok with h
        refine ⟨?_, ?_, ?_⟩
        · rw [← h, List.length_map, ← effLimit_toNat]
          exact hbound _ _ _ hr
        · rw [← h]
        · intro s' ps' hs' hsne' hps'
          have : truthy args.search = true := by
            rw [hs']
            simp [truthy, isEmpty_false_of_ne_nil hsne']
          exact absurd this hsearch

/-- C10 witness: the theorem applied to the concrete request searching
"alpha" with limit 1 against a three-project tracker that honours the
pagination bound; exactly one project comes back. -/
theorem claim_C10_witness :
    ([GetProjects.formatProject alphaWebsite].length ≤ 1) ∧
    ((1 : Nat) = [GetProjects.formatProject alphaWebsite].length) ∧
    (∀ s ps, (some (str "alpha") : Option Str) = some s → s ≠ [] →
      projectsTracker.projects none (GetProjects.effLimit (some 1) * 2) = .ok ps →
      [GetProjects.formatProject alphaWebsite]
        = ((ps.filter (GetProjects.projectMatchesSearch (jsToLower s))).take
            (GetProjects.effLimit (some 1)).toNat).map GetProjects.formatProject) :=
  claim_C10
    { apiKey := str "k", search := some (str "alpha"), status := none,
      limit := some 1 }
    projectsTracker
    { projects := [GetProjects.formatProject alphaWebsite], total := 1 }
    (fun f n r h => by
      have hr := Except.ok.inj h
      rw [← hr, List.length_take]
      exact min_le_left _ _)
    rfl
